import Mathlib

/-!
Verification of the data-normalization and schema-reconciliation layer of the
India data-dashboard repository (src/modules/utils.py and the chapter
consumers).  Pandas DataFrames are embedded as column-oriented tables of cells;
cells are strings, Python ints, Python floats (modelled as rationals, since
every numeric operation in this layer is exact decimal parsing/comparison), or
NaN.  Loader pipelines that can raise are embedded in `Except String`; the
loader boundary (`try/except`) is an explicit handler.
-/

/-- A cell of a pandas DataFrame: string, int, float (as `Rat`), or NaN. -/
inductive Val where
  | vs (s : String)
  | vi (n : Int)
  | vf (q : Rat)
  | na
deriving DecidableEq, Repr

/-- `pd.isna` on a cell. -/
def isna : Val → Bool
  | .na => true
  | _ => false

/-- A DataFrame: a row count and named columns (each a list of cells).
`nrows` models `len(df)`. -/
structure Table where
  nrows : Nat
  cols : List (String × List Val)
deriving DecidableEq, Repr

/-- `c in df.columns`. -/
def hasCol (t : Table) (c : String) : Bool :=
  t.cols.any (fun p => p.1 == c)

/-- The values of column `c`, if present. -/
def getCol (t : Table) (c : String) : Option (List Val) :=
  (t.cols.find? (fun p => p.1 == c)).map Prod.snd

/-- The values of column `c`, defaulting to the empty list. -/
def colVals (t : Table) (c : String) : List Val :=
  (getCol t c).getD []

/-- Replace the first column named `c` (keeping its position), else append. -/
def setColList : List (String × List Val) → String → List Val → List (String × List Val)
  | [], c, xs => [(c, xs)]
  | p :: ps, c, xs => if p.1 == c then (c, xs) :: ps else p :: setColList ps c xs

/-- `df[c] = xs` (column assignment). -/
def setCol (t : Table) (c : String) (xs : List Val) : Table :=
  ⟨t.nrows, setColList t.cols c xs⟩

/-- `df[c].iloc[i]`-style cell access. -/
def getCell (t : Table) (c : String) (i : Nat) : Option Val :=
  (getCol t c).bind (fun col => col[i]?)

/-- `if c not in df.columns: df[c] = xs` — the guarded column synthesis that
every loader uses for missing required columns. -/
def addColIfMissing (t : Table) (c : String) (xs : List Val) : Table :=
  if hasCol t c then t else setCol t c xs

/-- A constant default column: `df[c] = v` broadcast over all rows. -/
def constCol (n : Nat) (v : Val) : List Val :=
  List.replicate n v

/-- Sequential placeholders: `[f"{base}{i+1}" for i in range(len(df))]`. -/
def seqLabels (base : String) (n : Nat) : List Val :=
  (List.range n).map (fun i => Val.vs (base ++ toString (i + 1)))

/- ### Scalar parsing helpers (Python `float`, `int`, regex fragments) -/

def isDigitChar (c : Char) : Bool :=
  48 ≤ c.toNat && c.toNat ≤ 57

def isAlphaChar (c : Char) : Bool :=
  (65 ≤ c.toNat && c.toNat ≤ 90) || (97 ≤ c.toNat && c.toNat ≤ 122)

def digitVal (c : Char) : Nat := c.toNat - 48

def natOfDigits (ds : List Char) : Nat :=
  ds.foldl (fun a c => a * 10 + digitVal c) 0

/-- The decimal fragment of Python `float(s)` on the body after the sign:
`digits`, `digits.digits`, `digits.` or `.digits`. -/
def parseUnsignedRat (cs : List Char) : Option Rat :=
  let intPart := cs.takeWhile isDigitChar
  let rest := cs.dropWhile isDigitChar
  match rest with
  | [] => if intPart.isEmpty then none else some ((natOfDigits intPart : Nat) : Rat)
  | p :: frac =>
    if p = '.' && frac.all isDigitChar && !(intPart.isEmpty && frac.isEmpty) then
      some (((natOfDigits intPart : Nat) : Rat) +
        ((natOfDigits frac : Nat) : Rat) / ((10 : Rat) ^ frac.length))
    else none

def prefixMatch : List Char → List Char → Bool
  | [], _ => true
  | _ :: _, [] => false
  | p :: ps, c :: cs => p == c && prefixMatch ps cs

def isSpaceChar (c : Char) : Bool :=
  c.toNat = 32 || c.toNat = 9 || c.toNat = 10 || c.toNat = 13 || c.toNat = 11 || c.toNat = 12

/-- Python `str.strip()` over characters. -/
def charTrim (cs : List Char) : List Char :=
  ((cs.dropWhile isSpaceChar).reverse.dropWhile isSpaceChar).reverse

/-- Python `s.split(sep)` over characters (non-overlapping, left to right),
fuelled so that recursion is structural; the fuel is always sufficient at the
call sites below. -/
def splitOnFuel (sep : List Char) : Nat → List Char → List Char → List (List Char)
  | 0, rest, acc => [acc.reverse ++ rest]
  | _ + 1, [], acc => [acc.reverse]
  | fuel + 1, c :: cs, acc =>
    if prefixMatch sep (c :: cs) then
      acc.reverse :: splitOnFuel sep fuel (List.drop (sep.length - 1) cs) []
    else splitOnFuel sep fuel cs (c :: acc)

/-- Python `s.split(sep)` for a non-empty separator. -/
def charSplitOn (cs sep : List Char) : List (List Char) :=
  splitOnFuel sep (cs.length + 1) cs []

/-- Python `s.replace(old, new)` over characters (all non-overlapping
occurrences, left to right), fuelled for structural recursion. -/
def replaceFuel (old new : List Char) : Nat → List Char → List Char
  | 0, rest => rest
  | _ + 1, [] => []
  | fuel + 1, c :: cs =>
    if prefixMatch old (c :: cs) then
      new ++ replaceFuel old new fuel (List.drop (old.length - 1) cs)
    else c :: replaceFuel old new fuel cs

/-- Python `s.replace(old, new)` for a non-empty `old`. -/
def charReplace (cs old new : List Char) : List Char :=
  replaceFuel old new (cs.length + 1) cs

/-- Python `float(s)`: strips whitespace, optional sign, decimal literal;
raises `ValueError` otherwise (modelled on the decimal fragment; exponent and
inf/nan spellings are outside the data this layer sees). -/
def pyFloat (s : String) : Except String Rat :=
  match charTrim s.toList with
  | [] => .error "ValueError"
  | c :: rest =>
    let body := if c = '-' || c = '+' then rest else c :: rest
    let neg := c = '-'
    match parseUnsignedRat body with
    | some q => .ok (if neg then -q else q)
    | none => .error "ValueError"

/-- Python `int(s)`: strips whitespace, optional sign, digits only. -/
def pyInt (s : String) : Except String Int :=
  match charTrim s.toList with
  | [] => .error "ValueError"
  | c :: rest =>
    let body := if c = '-' || c = '+' then rest else c :: rest
    let neg := c = '-'
    if body.isEmpty || !body.all isDigitChar then .error "ValueError"
    else .ok (if neg then -((natOfDigits body : Nat) : Int) else ((natOfDigits body : Nat) : Int))

/-- First maximal run of characters satisfying `p` (regex first match of
`p+`), or `none`. -/
def firstRunBy (p : Char → Bool) : List Char → Option (List Char)
  | [] => none
  | c :: cs => if p c then some (c :: cs.takeWhile p) else firstRunBy p cs

/-- `re.search(r'-?\d+', s)` converted with `int(...)`: the leftmost
optionally-negated digit run. -/
def searchSignedInt : List Char → Option Int
  | [] => none
  | c :: cs =>
    if isDigitChar c then some ((natOfDigits (c :: cs.takeWhile isDigitChar) : Nat) : Int)
    else if c = '-' then
      match cs with
      | [] => none
      | d :: _ =>
        if isDigitChar d then some (-((natOfDigits (cs.takeWhile isDigitChar) : Nat) : Int))
        else searchSignedInt cs
    else searchSignedInt cs

/-- Substring containment over char lists (Python `pat in s`). -/
def containsSubList : List Char → List Char → Bool
  | [], pat => pat.isEmpty
  | c :: cs, pat => prefixMatch pat (c :: cs) || containsSubList cs pat

/-- Python `pat in s` / `pandas .str.contains(pat)` for literal patterns. -/
def containsSub (s pat : String) : Bool :=
  containsSubList s.toList pat.toList

/-- Python `str(x)` on a cell.  Floats are rendered as `num/den` when the
decimal expansion is not needed by any consumer in the claims (a harmless
display approximation); integral floats are rendered Python-style. -/
def pyStr : Val → String
  | .vs s => s
  | .vi n => toString n
  | .vf q => if q.den = 1 then toString q.num ++ ".0" else toString q
  | .na => "nan"

/-- `pd.to_numeric(x, errors='coerce')` on one cell: numeric strings become
ints or floats, unparseable strings become NaN, numbers pass through. -/
def pdToNumeric (v : Val) : Val :=
  match v with
  | .vs s =>
    match pyInt s with
    | .ok n => .vi n
    | .error _ =>
      match pyFloat s with
      | .ok q => .vf q
      | .error _ => .na
  | .vi n => .vi n
  | .vf q => .vf q
  | .na => .na

/-- `cell <= y` in a pandas boolean mask: NaN and strings compare False. -/
def valLE (v : Val) (y : Int) : Bool :=
  match v with
  | .vi n => decide (n ≤ y)
  | .vf q => decide (q ≤ (y : Rat))
  | _ => false

/-- Keep the entries of `xs` whose mask bit is true (`df[mask]` on one
column). -/
def applyMask : List Bool → List Val → List Val
  | b :: bs, v :: xs => if b then v :: applyMask bs xs else applyMask bs xs
  | _, _ => []

def countTrue (bs : List Bool) : Nat :=
  (bs.filter id).length

/-- Reference-table lookup `d.get(x, default)` keyed by a cell: only string
cells can hit a key. -/
def mapColD (dict : List (String × Val)) (dflt : Val) (v : Val) : Val :=
  match v with
  | .vs k => ((dict.find? (fun p => p.1 == k)).map Prod.snd).getD dflt
  | _ => dflt

/-- `df[newc] = df[keyc].map(lambda x: dict.get(x, dflt))` guarded by
`newc not in df.columns`. -/
def addColFromMap (t : Table) (newc keyc : String) (dict : List (String × Val)) (dflt : Val) : Table :=
  addColIfMissing t newc ((colVals t keyc).map (mapColD dict dflt))

/-- The value function of a reference-table column synthesis, for use in a
step list. -/
def mapFromCol (keyc : String) (dict : List (String × Val)) (dflt : Val) (t : Table) : List Val :=
  (colVals t keyc).map (mapColD dict dflt)

/-- A block of consecutive `if col not in df.columns: df[col] = ...`
statements: each step is a column name with the value it would synthesize
from the table as it stands at that point. -/
def runSteps (steps : List (String × (Table → List Val))) (t : Table) : Table :=
  steps.foldl (fun acc p => addColIfMissing acc p.1 (p.2 acc)) t

/-- String-valued lookup for era-range style dictionaries. -/
def lookupStr (dict : List (String × String)) (v : Val) : Option String :=
  match v with
  | .vs k => (dict.find? (fun p => p.1 == k)).map Prod.snd
  | _ => none

/- ### Dataset loader reconciliation bodies (src/modules/utils.py)

Each `load_<domain>_reconcile` is the schema-reconciliation body of the
corresponding `load_<domain>_data` function: everything between the
`safe_read_csv` read and the `return df`, acting on the already-read table.
The surrounding `try/except` loader boundary is modelled separately. -/

/-- load_linguistic_data: required-column backfill. -/
def load_linguistic_reconcile (t : Table) : Table :=
  runSteps [
    ("Language", fun t => seqLabels "Language " t.nrows),
    ("Speakers", fun t => constCol t.nrows (Val.vi 0)),
    ("Percentage", fun t => constCol t.nrows (Val.vf 0))] t

/-- load_religious_data: required-column backfill. -/
def load_religious_reconcile (t : Table) : Table :=
  runSteps [
    ("Religion", fun t => seqLabels "Religion " t.nrows),
    ("Percentage", fun t => constCol t.nrows (Val.vf 0)),
    ("Population", fun t => constCol t.nrows (Val.vi 0))] t

/-- HDI values by state (load_state_data). -/
def hdi_values : List (String × Val) := [
  ("Kerala", .vf 0.782), ("Delhi", .vf 0.746), ("Goa", .vf 0.761),
  ("Punjab", .vf 0.723), ("Tamil Nadu", .vf 0.708), ("Himachal Pradesh", .vf 0.725),
  ("Maharashtra", .vf 0.696), ("Karnataka", .vf 0.682), ("Telangana", .vf 0.669),
  ("Gujarat", .vf 0.672), ("Haryana", .vf 0.708), ("Uttarakhand", .vf 0.684),
  ("West Bengal", .vf 0.641), ("Andhra Pradesh", .vf 0.649), ("Rajasthan", .vf 0.629),
  ("Odisha", .vf 0.606), ("Assam", .vf 0.613), ("Jharkhand", .vf 0.599),
  ("Chhattisgarh", .vf 0.613), ("Madhya Pradesh", .vf 0.603), ("Uttar Pradesh", .vf 0.596),
  ("Bihar", .vf 0.574), ("Manipur", .vf 0.697), ("Tripura", .vf 0.658),
  ("Meghalaya", .vf 0.636), ("Nagaland", .vf 0.679), ("Sikkim", .vf 0.716),
  ("Mizoram", .vf 0.705), ("Arunachal Pradesh", .vf 0.662), ("Jammu and Kashmir", .vf 0.688),
  ("Chandigarh", .vf 0.775), ("Puducherry", .vf 0.738),
  ("Andaman and Nicobar Islands", .vf 0.74), ("Lakshadweep", .vf 0.712),
  ("Dadra and Nagar Haveli", .vf 0.663), ("Daman and Diu", .vf 0.681),
  ("Ladakh", .vf 0.674)]

/-- Urbanization rates by state (load_state_data). -/
def urbanization_values : List (String × Val) := [
  ("Delhi", .vf 97.5), ("Chandigarh", .vf 97.3), ("Puducherry", .vf 68.3),
  ("Goa", .vf 62.2), ("Mizoram", .vf 52.1), ("Tamil Nadu", .vf 48.4),
  ("Kerala", .vf 47.7), ("Maharashtra", .vf 45.2), ("Gujarat", .vf 42.6),
  ("Karnataka", .vf 38.6), ("Telangana", .vf 38.9), ("Punjab", .vf 37.5),
  ("Haryana", .vf 34.8), ("Andhra Pradesh", .vf 33.5), ("West Bengal", .vf 31.9),
  ("Uttarakhand", .vf 30.2), ("Jammu and Kashmir", .vf 27.4), ("Nagaland", .vf 28.9),
  ("Manipur", .vf 29.2), ("Jharkhand", .vf 24.1), ("Rajasthan", .vf 24.9),
  ("Chhattisgarh", .vf 23.2), ("Madhya Pradesh", .vf 27.6), ("Odisha", .vf 16.7),
  ("Assam", .vf 14.1), ("Bihar", .vf 11.3), ("Himachal Pradesh", .vf 10.0),
  ("Sikkim", .vf 25.1), ("Tripura", .vf 26.2), ("Meghalaya", .vf 20.1),
  ("Arunachal Pradesh", .vf 22.9), ("Uttar Pradesh", .vf 22.3),
  ("Andaman and Nicobar Islands", .vf 37.7), ("Dadra and Nagar Haveli", .vf 47.2),
  ("Daman and Diu", .vf 75.2), ("Lakshadweep", .vf 78.1), ("Ladakh", .vf 21.4)]

/-- State capitals (load_state_data). -/
def capitals : List (String × Val) := [
  ("Andhra Pradesh", .vs "Amaravati"), ("Arunachal Pradesh", .vs "Itanagar"),
  ("Assam", .vs "Dispur"), ("Bihar", .vs "Patna"), ("Chhattisgarh", .vs "Raipur"),
  ("Goa", .vs "Panaji"), ("Gujarat", .vs "Gandhinagar"), ("Haryana", .vs "Chandigarh"),
  ("Himachal Pradesh", .vs "Shimla"), ("Jharkhand", .vs "Ranchi"),
  ("Karnataka", .vs "Bengaluru"), ("Kerala", .vs "Thiruvananthapuram"),
  ("Madhya Pradesh", .vs "Bhopal"), ("Maharashtra", .vs "Mumbai"),
  ("Manipur", .vs "Imphal"), ("Meghalaya", .vs "Shillong"), ("Mizoram", .vs "Aizawl"),
  ("Nagaland", .vs "Kohima"), ("Odisha", .vs "Bhubaneswar"), ("Punjab", .vs "Chandigarh"),
  ("Rajasthan", .vs "Jaipur"), ("Sikkim", .vs "Gangtok"), ("Tamil Nadu", .vs "Chennai"),
  ("Telangana", .vs "Hyderabad"), ("Tripura", .vs "Agartala"),
  ("Uttar Pradesh", .vs "Lucknow"), ("Uttarakhand", .vs "Dehradun"),
  ("West Bengal", .vs "Kolkata"), ("Andaman and Nicobar Islands", .vs "Port Blair"),
  ("Chandigarh", .vs "Chandigarh"), ("Dadra and Nagar Haveli", .vs "Silvassa"),
  ("Daman and Diu", .vs "Daman"), ("Delhi", .vs "New Delhi"),
  ("Jammu and Kashmir", .vs "Srinagar/Jammu"), ("Ladakh", .vs "Leh"),
  ("Lakshadweep", .vs "Kavaratti"), ("Puducherry", .vs "Puducherry")]

/-- Official languages by state (load_state_data). -/
def languages : List (String × Val) := [
  ("Andhra Pradesh", .vs "Telugu"), ("Arunachal Pradesh", .vs "English"),
  ("Assam", .vs "Assamese"), ("Bihar", .vs "Hindi, Urdu"), ("Chhattisgarh", .vs "Hindi"),
  ("Goa", .vs "Konkani, Marathi"), ("Gujarat", .vs "Gujarati"), ("Haryana", .vs "Hindi"),
  ("Himachal Pradesh", .vs "Hindi, Sanskrit"), ("Jharkhand", .vs "Hindi"),
  ("Karnataka", .vs "Kannada"), ("Kerala", .vs "Malayalam"),
  ("Madhya Pradesh", .vs "Hindi"), ("Maharashtra", .vs "Marathi"),
  ("Manipur", .vs "Manipuri"), ("Meghalaya", .vs "English"),
  ("Mizoram", .vs "Mizo, English"), ("Nagaland", .vs "English"), ("Odisha", .vs "Odia"),
  ("Punjab", .vs "Punjabi"), ("Rajasthan", .vs "Hindi"), ("Sikkim", .vs "Nepali, English"),
  ("Tamil Nadu", .vs "Tamil"), ("Telangana", .vs "Telugu, Urdu"),
  ("Tripura", .vs "Bengali, English"), ("Uttar Pradesh", .vs "Hindi, Urdu"),
  ("Uttarakhand", .vs "Hindi, Sanskrit"), ("West Bengal", .vs "Bengali"),
  ("Delhi", .vs "Hindi, English"), ("Jammu and Kashmir", .vs "Urdu, Kashmiri, Dogri"),
  ("Ladakh", .vs "Ladakhi, Hindi, English")]

/-- Major crops by state (load_state_data). -/
def crops : List (String × Val) := [
  ("Punjab", .vs "Wheat, Rice, Maize, Sugarcane"),
  ("Haryana", .vs "Wheat, Rice, Sugarcane, Cotton"),
  ("Uttar Pradesh", .vs "Wheat, Rice, Sugarcane, Pulses"),
  ("Bihar", .vs "Rice, Wheat, Maize, Pulses"),
  ("West Bengal", .vs "Rice, Jute, Tea, Pulses"),
  ("Assam", .vs "Rice, Tea, Jute, Oilseeds"),
  ("Gujarat", .vs "Cotton, Groundnut, Tobacco, Cumin"),
  ("Maharashtra", .vs "Jowar, Cotton, Sugarcane, Pulses"),
  ("Karnataka", .vs "Coffee, Silk, Ragi, Jowar"),
  ("Tamil Nadu", .vs "Rice, Sugarcane, Banana, Cotton"),
  ("Andhra Pradesh", .vs "Rice, Cotton, Sugarcane, Tobacco"),
  ("Kerala", .vs "Coconut, Rubber, Cardamom, Pepper"),
  ("Rajasthan", .vs "Bajra, Pulses, Oilseeds, Wheat"),
  ("Madhya Pradesh", .vs "Soybean, Wheat, Rice, Maize")]

/-- Key industries by state (load_state_data). -/
def industries : List (String × Val) := [
  ("Maharashtra", .vs "Automotive, IT, Textiles, Finance"),
  ("Gujarat", .vs "Petrochemicals, Textiles, Pharmaceuticals"),
  ("Tamil Nadu", .vs "Automotive, Textiles, Electronics"),
  ("Karnataka", .vs "IT, Aerospace, Biotechnology"),
  ("Delhi", .vs "IT, Media, Tourism, Retail"),
  ("Telangana", .vs "IT, Pharmaceuticals, Biotechnology"),
  ("Haryana", .vs "Automotive, IT, Agriculture"),
  ("Uttar Pradesh", .vs "Food Processing, Cement, Handicrafts"),
  ("West Bengal", .vs "Jute, Tea, Leather, Steel"),
  ("Andhra Pradesh", .vs "Pharmaceuticals, Food Processing, Textiles"),
  ("Kerala", .vs "Tourism, Coir, Spices, Seafood"),
  ("Goa", .vs "Tourism, Pharmaceuticals, Mining"),
  ("Punjab", .vs "Textiles, Food Processing, Sports Goods")]

/-- Famous destinations by state (load_state_data). -/
def destinations : List (String × Val) := [
  ("Rajasthan", .vs "Jaipur, Udaipur, Jaisalmer, Jodhpur"),
  ("Kerala", .vs "Alleppey, Munnar, Kochi, Thekkady"),
  ("Goa", .vs "Baga Beach, Calangute, Anjuna, Old Goa"),
  ("Himachal Pradesh", .vs "Shimla, Manali, Dharamshala, Dalhousie"),
  ("Maharashtra", .vs "Mumbai, Ajanta & Ellora, Lonavala"),
  ("Tamil Nadu", .vs "Chennai, Ooty, Kodaikanal, Mahabalipuram"),
  ("Uttar Pradesh", .vs "Agra, Varanasi, Lucknow, Allahabad"),
  ("Delhi", .vs "Red Fort, Qutub Minar, India Gate, Humayun\x27s Tomb"),
  ("Karnataka", .vs "Bangalore, Mysore, Hampi, Coorg"),
  ("Uttarakhand", .vs "Rishikesh, Haridwar, Nainital, Mussoorie"),
  ("Jammu and Kashmir", .vs "Srinagar, Gulmarg, Pahalgam, Leh"),
  ("Ladakh", .vs "Leh, Pangong Lake, Nubra Valley, Zanskar")]

/-- load_state_data: required-column backfill plus reference-table columns. -/
def load_state_reconcile (t : Table) : Table :=
  runSteps [
    ("State", fun t => seqLabels "State " t.nrows),
    ("Population (millions)", fun t => constCol t.nrows (Val.vf 0)),
    ("Area (sq km)", fun t => constCol t.nrows (Val.vi 0)),
    ("Literacy Rate (%)", fun t => constCol t.nrows (Val.vf 0)),
    ("Region", fun t => constCol t.nrows (Val.vs "Unknown")),
    ("HDI", mapFromCol "State" hdi_values (Val.vf 0.65)),
    ("Urbanization (%)", mapFromCol "State" urbanization_values (Val.vf 35.0)),
    ("Capital", mapFromCol "State" capitals (Val.vs "Unknown")),
    ("Official Languages", mapFromCol "State" languages (Val.vs "Unknown")),
    ("Major Crops", mapFromCol "State" crops (Val.vs "Various food and cash crops")),
    ("Key Industries", mapFromCol "State" industries
      (Val.vs "Agriculture, Services, Small-scale industries")),
    ("Famous Destinations", mapFromCol "State" destinations
      (Val.vs "Various historical and natural attractions"))] t

/-- Required-column backfill of load_cultural_data. -/
def culturalRequired (t : Table) : Table :=
  runSteps [
    ("Cultural Element", fun t => seqLabels "Element " t.nrows),
    ("Count", fun t => constCol t.nrows (Val.vi 0)),
    ("Description", fun t => constCol t.nrows (Val.vs "No description available")),
    ("Historical Period", fun t => constCol t.nrows (Val.vs "Unknown period")),
    ("Region of Origin", fun t => constCol t.nrows (Val.vs "All India"))] t

/-- The Heritage_Type backward-compatibility mirror of load_cultural_data. -/
def culturalHeritage (t : Table) : Table :=
  if !hasCol t "Heritage_Type" && hasCol t "Cultural Element" then
    setCol t "Heritage_Type" (colVals t "Cultural Element")
  else t

def culturalName (t : Table) : Table :=
  addColIfMissing t "Name" (seqLabels "Heritage " t.nrows)

/-- The State fallthrough chain of load_cultural_data. -/
def culturalState (t : Table) : Table :=
  if !hasCol t "State" && hasCol t "Associated States" then
    setCol t "State" (colVals t "Associated States")
  else if !hasCol t "State" && hasCol t "Region of Origin" then
    setCol t "State" (colVals t "Region of Origin")
  else if !hasCol t "State" then
    setCol t "State" (constCol t.nrows (Val.vs "Unknown"))
  else t

/-- The Year extraction chain of load_cultural_data:
`int(re.search(r'-?\d+', str(x)).group()) if ... else 0` over Historical
Period. -/
def culturalYear (t : Table) : Table :=
  if !hasCol t "Year" && hasCol t "Historical Period" then
    setCol t "Year" ((colVals t "Historical Period").map
      (fun v => Val.vi ((searchSignedInt (pyStr v).toList).getD 0)))
  else if !hasCol t "Year" then
    setCol t "Year" (constCol t.nrows (Val.vi 0))
  else t

def load_cultural_reconcile (t : Table) : Table :=
  culturalYear (culturalState (culturalName (culturalHeritage (culturalRequired t))))

/-- One step of `for col in [...]: if col in df.columns:
df[col] = pd.to_numeric(df[col], errors='coerce')` (load_population_data). -/
def coerceNumericCol (t : Table) (c : String) : Table :=
  if hasCol t c then setCol t c ((colVals t c).map pdToNumeric) else t

/-- `df = df[df['Year'] <= current_year]` (load_population_data): mask every
column by the Year comparison. -/
def filterYearLE (t : Table) (y : Int) : Table :=
  let mask := (colVals t "Year").map (fun v => valLE v y)
  ⟨countTrue mask, t.cols.map (fun p => (p.1, applyMask mask p.2))⟩

/-- Required columns and defaults of load_population_data. -/
def popSteps : List (String × (Table → List Val)) := [
  ("Year", fun t => (List.range t.nrows).map (fun i => Val.vi (1950 + i))),
  ("Population (millions)", fun t => constCol t.nrows (Val.vf 0)),
  ("Urban Population (%)", fun t => constCol t.nrows (Val.vf 0)),
  ("Rural Population (%)", fun t => constCol t.nrows (Val.vf 0))]

/-- The `pd.to_numeric` loop of load_population_data over its four declared
columns. -/
def popCoerce (t : Table) : Table :=
  ["Year", "Population (millions)", "Urban Population (%)",
   "Rural Population (%)"].foldl coerceNumericCol t

/-- load_population_data: required backfill, `pd.to_numeric(errors='coerce')`
on the four declared columns, then the projection filter
`df = df[df['Year'] <= current_year]`.  `y` models
`pd.Timestamp.now().year`. -/
def load_population_reconcile (y : Int) (t : Table) : Table :=
  filterYearLE (popCoerce (runSteps popSteps t)) y

/-- load_economic_data: required-column backfill. -/
def load_economic_reconcile (t : Table) : Table :=
  runSteps [
    ("Year", fun t => (List.range t.nrows).map (fun i => Val.vi (1950 + i))),
    ("Agriculture", fun t => constCol t.nrows (Val.vf 0)),
    ("Industry", fun t => constCol t.nrows (Val.vf 0)),
    ("Services", fun t => constCol t.nrows (Val.vf 0))] t

/-- Expected columns and fallback values of load_education_data.  The Python
dict literal lists 'Number of Universities' twice (1047, then '1,047'); the
dict keeps the first position with the last value, reproduced here. -/
def expected_columns : List (String × Val) := [
  ("National Literacy Rate (%)", .vf 78.7),
  ("Primary Enrollment Rate (%)", .vf 94.2),
  ("Number of Universities", .vs "1,047"),
  ("Higher Education Enrollment (millions)", .vf 38.5),
  ("State Names", .vs "Kerala, Delhi, Tamil Nadu, Himachal Pradesh, Maharashtra"),
  ("State Literacy Rates (%)", .vs "96.2, 93.2, 90.4, 89.5, 88.9"),
  ("State Primary Enrollment (%)", .vs "98.5, 97.2, 97.0, 96.3, 96.0"),
  ("State Secondary Enrollment (%)", .vs "90.9, 88.7, 85.9, 91.5, 87.2"),
  ("State Higher Ed Enrollment (%)", .vs "36.9, 36.0, 49.0, 30.8, 32.2"),
  ("Literacy Rate Years", .vs "1951, 1961, 1971, 1981, 1991, 2001, 2011, 2021"),
  ("Literacy Rate History", .vs "18.3, 28.3, 34.5, 43.6, 52.2, 64.8, 74.0, 78.7"),
  ("Number of Primary Schools", .vs "848,712"),
  ("Number of Secondary Schools", .vs "271,385"),
  ("Number of Colleges", .vs "42,343"),
  ("Number of Technical Institutions", .vs "10,827"),
  ("Regional Names", .vs "North, South, East, West, Central, Northeast"),
  ("Regional Primary Schools", .vs "196,000, 187,000, 142,000, 164,000, 91,000, 68,712"),
  ("Regional Secondary Schools", .vs "62,500, 71,350, 47,000, 53,535, 23,000, 14,000"),
  ("Regional Colleges", .vs "10,650, 13,960, 5,500, 8,233, 2,500, 1,500"),
  ("Regional Population (millions)", .vs "365, 252, 230, 213, 115, 46"),
  ("Teacher-Student Ratio Primary", .vs "1:26"),
  ("Teacher-Student Ratio Secondary", .vs "1:22"),
  ("Teacher-Student Ratio Higher Ed", .vs "1:24"),
  ("PISA Reading Score", .vs "415"),
  ("PISA Math Score", .vs "428"),
  ("PISA Science Score", .vs "419"),
  ("Global Innovation Index", .vs "37.2/100"),
  ("Higher Education Quality Rank", .vs "16/50"),
  ("PISA Comparison Countries", .vs "India, China, UK, USA, Brazil"),
  ("PISA Comparison Reading", .vs "415, 555, 504, 505, 413"),
  ("PISA Comparison Math", .vs "428, 591, 502, 478, 384"),
  ("PISA Comparison Science", .vs "419, 590, 505, 502, 404"),
  ("Top Universities", .vs "IIT Bombay, IISc Bangalore, IIT Delhi, IIT Madras, IIT Kanpur"),
  ("University World Ranks", .vs "177, 185, 193, 255, 264"),
  ("Gender Parity Primary", .vs "1.03"),
  ("Gender Parity Secondary", .vs "1.01"),
  ("Gender Parity Higher Ed", .vs "1.05"),
  ("State Female Literacy (%)", .vs "92.0, 89.6, 86.4, 83.7, 83.1"),
  ("State Male Literacy (%)", .vs "97.4, 95.7, 93.1, 93.6, 92.9")]

/-- load_education_data: expected-column backfill then the legacy required
check. -/
def load_education_reconcile (t : Table) : Table :=
  runSteps (expected_columns.map (fun p => (p.1, fun t => constCol t.nrows p.2)) ++ [
    ("State", fun t => seqLabels "State " t.nrows),
    ("Literacy_Rate", fun t => constCol t.nrows (Val.vf 0)),
    ("Primary_Enrollment", fun t => constCol t.nrows (Val.vf 0)),
    ("Higher_Education_GER", fun t => constCol t.nrows (Val.vf 0))]) t

/-- The fixed sample terrain table of load_geography_data. -/
def terrain_data : Table :=
  ⟨6, [("Terrain_Type", [.vs "Mountains", .vs "Plains", .vs "Plateaus",
                          .vs "Deserts", .vs "Coastlines", .vs "Forests"]),
       ("Percentage", [.vf 15.3, .vf 43.2, .vf 27.8, .vf 7.9, .vf 3.5, .vf 2.3]),
       ("Area_sq_km", [.vi 502000, .vi 1419000, .vi 914000, .vi 260000,
                        .vi 115000, .vi 77000])]⟩

/-- load_geography_data: replace the whole table by the sample terrain table
when either terrain column is absent. -/
def load_geography_reconcile (t : Table) : Table :=
  if !hasCol t "Terrain_Type" || !hasCol t "Percentage" then terrain_data else t

/-- First comma token, stripped: `val.split(',')[0].strip()`. -/
def firstCommaToken (s : String) : String :=
  String.mk (charTrim ((charSplitOn s.toList [',']).headD []))

/-- load_tourism_data: column mappings (with per-value extraction for
Destination/State) then required-column backfill.  The source iterates
`for expected_col, actual_col in column_mappings.items()` over a dict whose
keys are the expected columns. -/
def load_tourism_reconcile (t : Table) : Table :=
  let t := if hasCol t "Popular Destinations" && !hasCol t "Destination" then
      setCol t "Destination" ((colVals t "Popular Destinations").enum.map
        (fun p => match p.2 with
          | Val.vs s => Val.vs (firstCommaToken s)
          | _ => Val.vs ("Destination " ++ toString (p.1 + 1))))
    else t
  let t := if hasCol t "Key States" && !hasCol t "State" then
      setCol t "State" ((colVals t "Key States").map
        (fun v => match v with
          | Val.vs s => Val.vs (firstCommaToken s)
          | _ => Val.vs "Unknown"))
    else t
  let t := if hasCol t "Tourism Type" && !hasCol t "Type" then
      setCol t "Type" (colVals t "Tourism Type")
    else t
  let t := if hasCol t "Annual Visitors (millions)" && !hasCol t "Visitors_Annual" then
      setCol t "Visitors_Annual" (colVals t "Annual Visitors (millions)")
    else t
  runSteps [
    ("Destination", fun t => seqLabels "Destination " t.nrows),
    ("State", fun t => constCol t.nrows (Val.vs "Unknown")),
    ("Type", fun t => constCol t.nrows (Val.vs "Monument")),
    ("Visitors_Annual", fun t => constCol t.nrows (Val.vi 0))] t

/-- Environmental impact by festival (load_festivals_data). -/
def environmental_impact : List (String × Val) := [
  ("Diwali", .vs "High - Air pollution from fireworks, increased waste from packaging, and energy consumption from lights"),
  ("Holi", .vs "Moderate to High - Water usage and chemical colors can contaminate water bodies, though natural colors are increasingly used"),
  ("Durga Puja", .vs "Moderate - Idol immersion impacts water bodies, though eco-friendly materials are increasingly used"),
  ("Ganesh Chaturthi", .vs "Moderate to High - Water pollution from idol immersion, though eco-friendly clay idols are being promoted"),
  ("Navratri/Dussehra", .vs "Moderate - Burning of effigies causes air pollution, increased waste from decorations"),
  ("Onam", .vs "Low - Primarily uses biodegradable materials like flowers and leaves for decorations"),
  ("Pongal/Makar Sankranti", .vs "Low to Moderate - Generally eco-friendly with some waste from kite materials in certain regions"),
  ("Bihu", .vs "Low - Mostly uses natural and biodegradable materials"),
  ("Eid al-Fitr", .vs "Low to Moderate - Primarily food waste and packaging waste from new items"),
  ("Eid al-Adha", .vs "Moderate - Animal sacrifice creates biological waste, though usually well-managed"),
  ("Muharram", .vs "Low - Limited environmental impact from processions"),
  ("Christmas", .vs "Moderate - Tree cutting (though artificial trees are common), packaging waste from gifts"),
  ("Easter", .vs "Low - Minimal environmental impact from celebrations"),
  ("Baisakhi", .vs "Low - Agricultural festival with minimal environmental footprint"),
  ("Guru Nanak Jayanti", .vs "Low - Minimal waste due to community meals using reusable plates"),
  ("Buddha Purnima", .vs "Low - Emphasis on non-violence extends to environmental consciousness"),
  ("Mahavir Jayanti", .vs "Low - Jain principles emphasize environmental protection"),
  ("Parsi New Year (Nowruz)", .vs "Low - Small community with limited environmental impact"),
  ("Raksha Bandhan", .vs "Low to Moderate - Waste from packaging of gifts and rakhis"),
  ("Karva Chauth", .vs "Low - Minimal environmental impact"),
  ("Chhath Puja", .vs "Moderate - Water pollution from offerings and waste near riverbanks"),
  ("Gudi Padwa/Ugadi", .vs "Low - Uses mostly biodegradable traditional materials"),
  ("Puthandu/Vishu", .vs "Low - Primarily uses natural materials like flowers and fruits"),
  ("Teej", .vs "Low - Minimal environmental impact from celebrations"),
  ("Hornbill Festival", .vs "Moderate - Increased waste and carbon footprint from tourism"),
  ("Hemis Festival", .vs "Low - Small scale with traditional materials"),
  ("Pushkar Camel Fair", .vs "Moderate - Large gathering creating waste and strain on local resources"),
  ("Thrissur Pooram", .vs "Moderate - Fireworks cause noise and air pollution"),
  ("Kumbh Mela", .vs "High - Massive gathering creating waste management challenges, water pollution, though improved management in recent years")]

/-- Economic impact (millions USD) by festival (load_festivals_data). -/
def economic_impact : List (String × Val) := [
  ("Diwali", .vi 7200), ("Holi", .vi 1500), ("Durga Puja", .vi 1200),
  ("Ganesh Chaturthi", .vi 950), ("Navratri/Dussehra", .vi 1700), ("Onam", .vi 500),
  ("Pongal/Makar Sankranti", .vi 650), ("Bihu", .vi 320), ("Eid al-Fitr", .vi 920),
  ("Eid al-Adha", .vi 750), ("Muharram", .vi 220), ("Christmas", .vi 780),
  ("Easter", .vi 180), ("Baisakhi", .vi 350), ("Guru Nanak Jayanti", .vi 290),
  ("Buddha Purnima", .vi 150), ("Mahavir Jayanti", .vi 130),
  ("Parsi New Year (Nowruz)", .vi 80), ("Raksha Bandhan", .vi 620),
  ("Karva Chauth", .vi 410), ("Chhath Puja", .vi 280), ("Gudi Padwa/Ugadi", .vi 380),
  ("Puthandu/Vishu", .vi 270), ("Teej", .vi 230), ("Hornbill Festival", .vi 170),
  ("Hemis Festival", .vi 90), ("Pushkar Camel Fair", .vi 310),
  ("Thrissur Pooram", .vi 250), ("Kumbh Mela", .vi 2200)]

/-- Participants (millions) by festival (load_festivals_data). -/
def participants : List (String × Val) := [
  ("Diwali", .vi 800), ("Holi", .vi 400), ("Durga Puja", .vi 120),
  ("Ganesh Chaturthi", .vi 100), ("Navratri/Dussehra", .vi 350), ("Onam", .vi 35),
  ("Pongal/Makar Sankranti", .vi 200), ("Bihu", .vi 25), ("Eid al-Fitr", .vi 180),
  ("Eid al-Adha", .vi 170), ("Muharram", .vi 80), ("Christmas", .vi 60),
  ("Easter", .vi 30), ("Baisakhi", .vi 45), ("Guru Nanak Jayanti", .vi 40),
  ("Buddha Purnima", .vi 20), ("Mahavir Jayanti", .vi 15),
  ("Parsi New Year (Nowruz)", .vf 0.5), ("Raksha Bandhan", .vi 250),
  ("Karva Chauth", .vi 120), ("Chhath Puja", .vi 70), ("Gudi Padwa/Ugadi", .vi 80),
  ("Puthandu/Vishu", .vi 40), ("Teej", .vi 60), ("Hornbill Festival", .vf 0.8),
  ("Hemis Festival", .vf 0.5), ("Pushkar Camel Fair", .vi 2),
  ("Thrissur Pooram", .vi 3), ("Kumbh Mela", .vi 220)]

/-- Tourist attraction level by festival (load_festivals_data). -/
def tourist_levels : List (String × Val) := [
  ("Diwali", .vi 9), ("Holi", .vi 10), ("Durga Puja", .vi 8),
  ("Ganesh Chaturthi", .vi 8), ("Navratri/Dussehra", .vi 7), ("Onam", .vi 7),
  ("Pongal/Makar Sankranti", .vi 6), ("Bihu", .vi 5), ("Eid al-Fitr", .vi 5),
  ("Eid al-Adha", .vi 4), ("Muharram", .vi 3), ("Christmas", .vi 6),
  ("Easter", .vi 4), ("Baisakhi", .vi 6), ("Guru Nanak Jayanti", .vi 5),
  ("Buddha Purnima", .vi 6), ("Mahavir Jayanti", .vi 3),
  ("Parsi New Year (Nowruz)", .vi 2), ("Raksha Bandhan", .vi 4),
  ("Karva Chauth", .vi 3), ("Chhath Puja", .vi 4), ("Gudi Padwa/Ugadi", .vi 4),
  ("Puthandu/Vishu", .vi 4), ("Teej", .vi 5), ("Hornbill Festival", .vi 9),
  ("Hemis Festival", .vi 8), ("Pushkar Camel Fair", .vi 10),
  ("Thrissur Pooram", .vi 9), ("Kumbh Mela", .vi 10)]

/-- Global celebrations by festival (load_festivals_data). -/
def global_celebrations : List (String × Val) := [
  ("Diwali", .vs "Celebrated in 30+ countries across North America, Europe, Asia, Africa, and Australia"),
  ("Holi", .vs "Celebrated in 40+ countries, with growing popularity as \x22color festivals\x22 globally"),
  ("Durga Puja", .vs "Celebrated in 15+ countries with significant Bengali diaspora communities"),
  ("Ganesh Chaturthi", .vs "Celebrated in 12+ countries with significant Maharashtrian communities"),
  ("Navratri/Dussehra", .vs "Celebrated in 20+ countries with significant Indian diaspora"),
  ("Onam", .vs "Celebrated in 8+ countries with Malayali diaspora communities"),
  ("Pongal/Makar Sankranti", .vs "Celebrated in 10+ countries with Tamil and Indian diaspora"),
  ("Bihu", .vs "Celebrated in 5+ countries with Assamese communities"),
  ("Eid al-Fitr", .vs "Celebrated in 25+ countries with Indian Muslim communities"),
  ("Eid al-Adha", .vs "Celebrated in 22+ countries with Indian Muslim communities"),
  ("Muharram", .vs "Observed in 15+ countries with Shia Muslim communities"),
  ("Christmas", .vs "Celebrated in 30+ countries with Indian Christian communities"),
  ("Easter", .vs "Celebrated in 20+ countries with Indian Christian communities"),
  ("Baisakhi", .vs "Celebrated in 18+ countries with significant Sikh diaspora"),
  ("Guru Nanak Jayanti", .vs "Celebrated in 15+ countries with Sikh communities"),
  ("Buddha Purnima", .vs "Celebrated in 10+ countries with Buddhist connections"),
  ("Mahavir Jayanti", .vs "Celebrated in 7+ countries with Jain diaspora"),
  ("Parsi New Year (Nowruz)", .vs "Celebrated in 5+ countries with Parsi communities"),
  ("Raksha Bandhan", .vs "Celebrated in 14+ countries with Indian diaspora"),
  ("Karva Chauth", .vs "Celebrated in 8+ countries with North Indian diaspora"),
  ("Chhath Puja", .vs "Celebrated in 6+ countries with Bihari diaspora"),
  ("Gudi Padwa/Ugadi", .vs "Celebrated in 7+ countries with South Indian diaspora"),
  ("Puthandu/Vishu", .vs "Celebrated in 6+ countries with Tamil and Malayalam diaspora"),
  ("Teej", .vs "Celebrated in 5+ countries with North Indian communities"),
  ("Hornbill Festival", .vs "Recognized in 3+ countries through cultural exchanges"),
  ("Hemis Festival", .vs "Recognized in 4+ countries with Tibetan Buddhist communities"),
  ("Pushkar Camel Fair", .vs "Attracts tourists from 25+ countries annually"),
  ("Thrissur Pooram", .vs "Recognized in 5+ countries through cultural showcases"),
  ("Kumbh Mela", .vs "Attracts pilgrims and tourists from 20+ countries")]

/-- `df['Season'].str.extract(r'([A-Za-z]+)(?:-[A-Za-z]+)?')[0]` on one cell:
the first run of ASCII letters, NaN when the cell is not a string or holds no
letters. -/
def monthExtract (v : Val) : Val :=
  match v with
  | .vs s =>
    match firstRunBy isAlphaChar s.toList with
    | some cs => .vs (String.mk cs)
    | none => .na
  | _ => .na

/-- The `column_mappings` renames of load_festivals_data: copy the actual
column to the expected name when the expected one is absent. -/
def festMappings (t : Table) : Table :=
  let t := if hasCol t "Religion/Type" && !hasCol t "Religion" then
      setCol t "Religion" (colVals t "Religion/Type") else t
  let t := if hasCol t "Primary States" && !hasCol t "Region" then
      setCol t "Region" (colVals t "Primary States") else t
  if hasCol t "Season" && !hasCol t "Month" then
    setCol t "Month" (colVals t "Season") else t

/-- Required columns and defaults of load_festivals_data. -/
def festRequiredSteps : List (String × (Table → List Val)) := [
  ("Festival", fun t => seqLabels "Festival " t.nrows),
  ("Religion", fun t => constCol t.nrows (Val.vs "Unknown")),
  ("Region", fun t => constCol t.nrows (Val.vs "All India")),
  ("Month", fun t => constCol t.nrows (Val.vs "January"))]

/-- Required-column backfill of load_festivals_data. -/
def festRequired (t : Table) : Table :=
  runSteps festRequiredSteps t

/-- `if 'Season' in df.columns and 'Month' in df.columns:`
`df['Month'] = df['Season'].str.extract(...)` — the Month overwrite of
load_festivals_data. -/
def festMonth (t : Table) : Table :=
  if hasCol t "Season" && hasCol t "Month" then
    setCol t "Month" ((colVals t "Season").map monthExtract)
  else t

/-- The last three festival reference-table columns of load_festivals_data. -/
def festRefSteps : List (String × (Table → List Val)) := [
  ("Participants (millions)", mapFromCol "Festival" participants (Val.vi 30)),
  ("Tourist Attraction Level", mapFromCol "Festival" tourist_levels (Val.vi 5)),
  ("Global Celebrations", mapFromCol "Festival" global_celebrations
    (Val.vs "Celebrated in 3+ countries with Indian diaspora communities"))]

/-- The five festival reference-table columns of load_festivals_data.  The
economic-impact one is guarded on two alternative spellings of its name. -/
def festRefs (t : Table) : Table :=
  let t := addColFromMap t "Environmental Impact" "Festival" environmental_impact
    (Val.vs "Moderate - General waste generation and energy usage common to mid-sized gatherings")
  let t := if !hasCol t "Economic Impact (Millions USD)" &&
              !hasCol t "Economic Impact (USD millions)" then
      setCol t "Economic Impact (Millions USD)"
        ((colVals t "Festival").map (mapColD economic_impact (Val.vi 250)))
    else t
  runSteps festRefSteps t

/-- load_festivals_data: alias-column mappings, required backfill, the
Month-from-Season extraction, then five reference-table columns. -/
def load_festivals_reconcile (t : Table) : Table :=
  festRefs (festMonth (festRequired (festMappings t)))

/-- Era year ranges (load_historical_data). -/
def era_ranges : List (String × String) := [
  ("Indus Valley Civilization", "2600-1900 BCE"),
  ("Vedic Period", "1500-600 BCE"),
  ("Mauryan Empire", "322-185 BCE"),
  ("Post-Mauryan Period", "185 BCE-320 CE"),
  ("Gupta Empire", "320-550 CE"),
  ("Post-Gupta Period", "550-1206 CE"),
  ("Delhi Sultanate", "1206-1526 CE"),
  ("Vijayanagara Empire", "1336-1646 CE"),
  ("Mughal Empire", "1526-1857 CE"),
  ("Maratha Empire", "1674-1818 CE"),
  ("Colonial Era", "1757-1947 CE"),
  ("British Raj", "1858-1947 CE"),
  ("Independence Movement", "1885-1947 CE"),
  ("Republic of India", "1950-Present"),
  ("Post-Independence", "1950-1991 CE"),
  ("Economic Reforms", "1991-2014 CE"),
  ("Modern India", "2014-Present"),
  ("Ancient India", "600-320 BCE"),
  ("Medieval India", "712-1757 CE"),
  ("Age of Exploration", "1498-1600 CE"),
  ("Independence", "1947-1950 CE")]

/-- Capital cities by era (load_historical_data). -/
def capital_cities : List (String × Val) := [
  ("Indus Valley Civilization", .vs "Harappa, Mohenjo-daro"),
  ("Vedic Period", .vs "Various tribal capitals"),
  ("Mauryan Empire", .vs "Pataliputra (modern Patna)"),
  ("Gupta Empire", .vs "Pataliputra (modern Patna)"),
  ("Delhi Sultanate", .vs "Delhi"),
  ("Vijayanagara Empire", .vs "Hampi"),
  ("Mughal Empire", .vs "Agra, Delhi, Fatehpur Sikri"),
  ("Maratha Empire", .vs "Raigad, Pune"),
  ("Colonial Era", .vs "Calcutta, Delhi"),
  ("British Raj", .vs "Calcutta (until 1911), Delhi"),
  ("Republic of India", .vs "New Delhi"),
  ("Post-Independence", .vs "New Delhi"),
  ("Modern India", .vs "New Delhi"),
  ("Ancient India", .vs "Various regional capitals"),
  ("Medieval India", .vs "Various regional capitals"),
  ("Post-Mauryan Period", .vs "Various regional capitals"),
  ("Post-Gupta Period", .vs "Kannauj, Thanesar"),
  ("Independence Movement", .vs "N/A (political movement)"),
  ("Independence", .vs "New Delhi"),
  ("Economic Reforms", .vs "New Delhi"),
  ("Age of Exploration", .vs "European trading posts")]

/-- The eleven era-keyed reference tables added by load_historical_data
(`additional_columns` in the source). -/
def additional_columns : List (String × List (String × Val)) := [
  ("Cultural Developments", [
    ("Indus Valley Civilization", .vs "Advanced urban planning, standardized weights and measures, sophisticated drainage systems, and possibly the development of the Indus script."),
    ("Vedic Period", .vs "Composition of the Vedas, development of Sanskrit, early Hindu rituals and practices, and emergence of the caste system."),
    ("Mauryan Empire", .vs "Buddhist art and architecture, rock-cut edicts, development of political philosophy through Arthashastra."),
    ("Gupta Empire", .vs "Golden Age of art, literature, and science. Sanskrit literature flourished with works of Kalidasa. Development of classical Indian music and dance forms."),
    ("Delhi Sultanate", .vs "Indo-Islamic fusion in art, architecture, and music. Introduction of Persian literary traditions."),
    ("Mughal Empire", .vs "Height of Indo-Islamic cultural synthesis. Miniature painting, Mughal architecture, Urdu poetry, and music flourished."),
    ("Colonial Era", .vs "Western influence on Indian culture, English education, modern literature, Bengal Renaissance."),
    ("Independence Movement", .vs "Revival of traditional arts as part of swadeshi movement, development of nationalist literature and music."),
    ("Republic of India", .vs "Constitutional framework, democratic institutions, secularism, and cultural pluralism."),
    ("Modern India", .vs "Digital revolution, global cultural influence through cinema and technology, fusion of traditional and modern art forms.")]),
  ("Religious Trends", [
    ("Indus Valley Civilization", .vs "Evidence of nature worship, ritual baths, and possibly proto-Shiva worship."),
    ("Vedic Period", .vs "Vedic religion with fire sacrifices, nature deities, and ritual practices that evolved into early Hinduism."),
    ("Ancient India", .vs "Rise of heterodox traditions like Buddhism and Jainism as reactions to Brahmanical orthodoxy."),
    ("Mauryan Empire", .vs "State patronage of Buddhism under Ashoka, spread of Buddhist missionaries to South and Southeast Asia."),
    ("Gupta Empire", .vs "Revival of Hinduism, particularly Vaishnavism and Shaivism, with continued Buddhist and Jain influence."),
    ("Medieval India", .vs "Introduction of Islam, development of Bhakti and Sufi movements emphasizing devotion and mysticism."),
    ("Mughal Empire", .vs "Syncretic religious policies under Akbar, attempts at creating Din-i-Ilahi, followed by more orthodox Islamic policies under Aurangzeb."),
    ("Colonial Era", .vs "Religious reform movements in Hinduism, Islam, and Sikhism; Christian missionary activities."),
    ("Independence Movement", .vs "Religious identities becoming intertwined with nationalist politics, ultimately leading to partition."),
    ("Republic of India", .vs "Constitutional secularism, religious pluralism, and legal reforms of religious practices.")]),
  ("Economic Systems", [
    ("Indus Valley Civilization", .vs "Trade-based economy with standardized weights and measures, agriculture, crafts, and long-distance trade with Mesopotamia."),
    ("Vedic Period", .vs "Pastoral and agricultural economy, barter system, and emergence of occupational specialization."),
    ("Mauryan Empire", .vs "Centralized economy with royal ownership of mines and forests, taxation system, and trade regulations described in Arthashastra."),
    ("Gupta Empire", .vs "Guild-based manufacturing, extensive trade networks, agricultural surplus, and sophisticated monetary system."),
    ("Delhi Sultanate", .vs "Feudal system, iqta land grants, agricultural taxation, and state monopolies on certain trades."),
    ("Mughal Empire", .vs "Sophisticated revenue system under Akbar (zabti), extensive international trade, and growth of urban manufacturing centers."),
    ("Colonial Era", .vs "Extractive colonial economy, deindustrialization, plantation agriculture, and integration into British imperial economic system."),
    ("Independence Movement", .vs "Emphasis on economic self-sufficiency, boycott of British goods, and promotion of indigenous industries."),
    ("Republic of India", .vs "Mixed economy with five-year plans, public sector dominance, agricultural reforms, and later economic liberalization."),
    ("Economic Reforms", .vs "Liberalization, privatization, and globalization of the Indian economy, rapid growth in services sector."),
    ("Modern India", .vs "Digital economy, startup ecosystem, service sector dominance, and integration into global supply chains.")]),
  ("Art & Architecture", [
    ("Indus Valley Civilization", .vs "Planned cities with grid layouts, advanced drainage systems, Great Bath at Mohenjo-daro, and small sculptures like the Dancing Girl."),
    ("Mauryan Empire", .vs "Pillars with animal capitals, especially the Sarnath Lion Capital, rock-cut architecture, and early Buddhist stupas."),
    ("Gupta Empire", .vs "Temple architecture, Ajanta and Ellora caves, sophisticated metal sculptures, and refined painting techniques."),
    ("Delhi Sultanate", .vs "Indo-Islamic architecture with arches and domes, Qutub Minar, and fortress construction."),
    ("Vijayanagara Empire", .vs "Temple complexes at Hampi with elaborate sculptural programs, musical pillars, and water systems."),
    ("Mughal Empire", .vs "Taj Mahal, Red Fort, Humayun\x27s Tomb, miniature painting, intricate carpets, and jewelry craftsmanship."),
    ("Colonial Era", .vs "Indo-Saracenic architecture, Company School painting, and fusion of European and Indian artistic traditions."),
    ("Republic of India", .vs "Modernist architecture in Chandigarh by Le Corbusier, Bengal School of Art, and post-independence artistic movements.")]),
  ("Territorial Extent", [
    ("Mauryan Empire", .vs "At its peak under Ashoka, extended from Afghanistan to Bengal and from the Himalayas to modern Karnataka."),
    ("Gupta Empire", .vs "Northern India, from the Indus River to Bengal, and from the Himalayas to the Narmada River."),
    ("Delhi Sultanate", .vs "Varying control over Northern India, with brief expansion into the Deccan under Muhammad bin Tughlaq."),
    ("Vijayanagara Empire", .vs "Most of South India, particularly modern Karnataka, Andhra Pradesh, Tamil Nadu, and parts of Kerala."),
    ("Mughal Empire", .vs "At its height under Aurangzeb, controlled almost the entire subcontinent except the southernmost regions."),
    ("Maratha Empire", .vs "Central India, with influence extending from Delhi in the north to Tamil Nadu in the south."),
    ("British Raj", .vs "Direct rule over most of the subcontinent, with princely states as protectorates, Burma (until 1937), and parts of Southeast Asia.")]),
  ("Social Structure", [
    ("Vedic Period", .vs "Emergence of varna system (Brahmin, Kshatriya, Vaishya, Shudra), patriarchal family structure, and tribal organization."),
    ("Ancient India", .vs "Crystallization of the caste system, urban merchant classes, guilds of artisans, and monastic communities."),
    ("Gupta Empire", .vs "Complex caste-based society, powerful Brahmin class, guild organizations, and village self-governance."),
    ("Medieval India", .vs "Feudal relationships, emergence of Rajput clans, strengthening of caste boundaries, and status of women declining in upper castes."),
    ("Mughal Empire", .vs "Mansabdari system of nobles, religious pluralism under Akbar, complex court hierarchy, and urban merchant communities."),
    ("Colonial Era", .vs "Codification of caste, emergence of Western-educated elite, and new professional classes."),
    ("Republic of India", .vs "Constitutional protections for disadvantaged groups, affirmative action, urbanization, and changing family structures.")]),
  ("Scientific Advances", [
    ("Indus Valley Civilization", .vs "Advanced drainage systems, standardized weights and measures, and knowledge of astronomy for agricultural calendars."),
    ("Vedic Period", .vs "Early astronomical observations, mathematical concepts in Vedic rituals, and medicinal knowledge in Atharvaveda."),
    ("Gupta Empire", .vs "Aryabhata\x27s work on astronomy and mathematics, concept of zero, decimal system, calculation of pi, and trigonometry."),
    ("Medieval India", .vs "Advancements in algebra, astronomy, and medicine through scholars like Brahmagupta and Bhaskara II."),
    ("Mughal Empire", .vs "Astronomical observatories (Jantar Mantar), metallurgy, and synthesis of Indian and Persian medical traditions."),
    ("Colonial Era", .vs "Introduction of Western scientific education, establishment of scientific institutions, and early Indian participation in modern science."),
    ("Republic of India", .vs "Development of nuclear and space programs, biotechnology, pharmaceutical industry, and information technology.")]),
  ("Technological Innovations", [
    ("Indus Valley Civilization", .vs "Precise standardized weights and measures, advanced metallurgy, sophisticated urban planning, and possibly docks for water transport."),
    ("Ancient India", .vs "Iron technology, steel production (wootz steel), shipbuilding, textile techniques, and water management systems."),
    ("Gupta Empire", .vs "Advanced metallurgy (Iron Pillar of Delhi), medical procedures described by Sushruta, and sophisticated textile production."),
    ("Medieval India", .vs "Paper manufacturing, water wheels, irrigation systems, and fortress construction techniques."),
    ("Mughal Empire", .vs "Advances in textile production, metalworking, gunpowder weapons, and architectural engineering."),
    ("Colonial Era", .vs "Railways, telegraph, modern irrigation systems, and mechanized industries."),
    ("Post-Independence", .vs "Green Revolution agricultural technologies, nuclear power, space program, and early computer systems."),
    ("Modern India", .vs "Software development, pharmaceutical manufacturing, renewable energy technologies, and digital payment systems.")]),
  ("Military Developments", [
    ("Mauryan Empire", .vs "Large standing army with specialized divisions for infantry, cavalry, chariots, and elephants, described in detail in Arthashastra."),
    ("Gupta Empire", .vs "Skilled cavalry and elephant corps, development of the composite bow, and fortress defense strategies."),
    ("Delhi Sultanate", .vs "Introduction of heavy cavalry tactics, siege engines, and Turkish military organization."),
    ("Mughal Empire", .vs "Gunpowder weapons including artillery, matchlock infantry (Banduqchi), and sophisticated cavalry tactics."),
    ("Maratha Empire", .vs "Guerrilla warfare techniques, swift cavalry movements, and hill fort defense systems."),
    ("Colonial Era", .vs "Creation of British Indian Army, modern military organization, and incorporation of Indian martial traditions."),
    ("Republic of India", .vs "Development of modern military with indigenous defense production, nuclear weapons, and professional armed forces.")]),
  ("Foreign Relations", [
    ("Ancient India", .vs "Diplomatic and trade contacts with Greek states following Alexander\x27s invasion, embassy exchanges with the Roman Empire."),
    ("Mauryan Empire", .vs "Diplomatic relations with Hellenistic kingdoms, especially the Seleucids, embassy of Megasthenes, and Buddhist missions abroad."),
    ("Gupta Empire", .vs "Trade and cultural exchanges with Southeast Asia, China, and the Byzantine Empire."),
    ("Medieval India", .vs "Arab trade networks, diplomatic contacts with China, and influences from Central Asia."),
    ("Mughal Empire", .vs "Diplomatic relations with Safavid Persia, Ottoman Empire, and various European powers."),
    ("British Raj", .vs "India as part of the British imperial system, participation in World Wars, and colonial foreign policy."),
    ("Republic of India", .vs "Non-alignment policy during Cold War, leadership in Non-Aligned Movement, and later strategic partnerships.")]),
  ("Historical Legacy", [
    ("Indus Valley Civilization", .vs "Urban planning concepts, possible continuities in religious iconography, and early standardization systems."),
    ("Vedic Period", .vs "Foundational texts of Hinduism, Sanskrit language and literature, and early philosophical concepts."),
    ("Mauryan Empire", .vs "Concepts of imperial governance, Ashoka\x27s principles of dharma and non-violence, and Buddhist heritage."),
    ("Gupta Empire", .vs "Classical traditions in art, literature, and science, Hindu temple architecture, and mathematical innovations."),
    ("Delhi Sultanate", .vs "Indo-Islamic cultural synthesis, architectural traditions, and administrative systems."),
    ("Mughal Empire", .vs "Architectural monuments, miniature painting tradition, Urdu language, and administrative systems adopted by later states."),
    ("Colonial Era", .vs "Modern educational institutions, legal system, railways and infrastructure, and English language."),
    ("Independence Movement", .vs "Principles of non-violent resistance, democratic aspirations, and anti-colonial ideology."),
    ("Republic of India", .vs "Constitutional democracy, pluralistic society, and principles of secularism and federalism.")])]

/-- Python `int(cell)`: ints pass, floats truncate toward zero, integer
strings parse, NaN raises. -/
def pyIntOfVal : Val → Except String Int
  | .vi n => .ok n
  | .vf q => .ok (Int.tdiv q.num (q.den : Int))
  | .vs s => pyInt s
  | .na => .error "ValueError"

/-- `format_time_period` in load_historical_data: negative years render as
BCE, others as CE. -/
def format_time_period (v : Val) : Except String Val := do
  let y ← pyIntOfVal v
  if y < 0 then
    pure (Val.vs (toString (-y) ++ " BCE"))
  else
    pure (Val.vs (toString y ++ " CE"))

/-- The per-row Major Events fallthrough of load_historical_data. -/
def majorEvents (ev sig : Val) : Val :=
  if !isna ev && !isna sig then
    .vs ("**" ++ pyStr ev ++ "**: " ++ pyStr sig)
  else if !isna ev then ev
  else if !isna sig then sig
  else .vs "No event information available"

/-- `event = row['Event'] if not pd.isna(row['Event']) else ""` followed by
`needle in event`: the `in` operator raises TypeError on a non-string,
non-NaN Event cell. -/
def eventString : Val → Except String String
  | .na => .ok ""
  | .vs s => .ok s
  | _ => .error "TypeError"

/-- One cell of the event-specific patch loop of load_historical_data. -/
def patchCell (needle text : String) (ev cur : Val) : Except String Val := do
  let s ← eventString ev
  pure (if containsSub s needle && isna cur then Val.vs text else cur)

/-- The event-specific patch loop of load_historical_data applied to column
`c`: rows whose Event contains `needle` and whose `c` cell is NaN receive
`text`. -/
def patchCol (t : Table) (needle c text : String) : Except String Table := do
  let patched ← (List.zip (colVals t "Event") (colVals t c)).mapM
    (fun p => patchCell needle text p.1 p.2)
  pure (setCol t c patched)

/-- Required-column backfill of load_historical_data. -/
def histDefaults (t : Table) : Table :=
  runSteps [
    ("Year", fun t => constCol t.nrows (Val.vi 0)),
    ("Era", fun t => constCol t.nrows (Val.vs "Unknown")),
    ("Event", fun t => constCol t.nrows (Val.vs "Unknown Event")),
    ("Significance", fun t => constCol t.nrows (Val.vs "Unknown significance"))] t

/-- Time Period synthesis of load_historical_data: `format_time_period` over
the Year column, then the exact-match `era_ranges` override per row.
`int(nan)` and `int("...")` on a non-integer string raise. -/
def histTimePeriod (t : Table) : Except String Table :=
  if hasCol t "Time Period" then pure t
  else do
    let formatted ← (colVals t "Year").mapM format_time_period
    pure (setCol t "Time Period"
      (List.zipWith (fun era f =>
        match lookupStr era_ranges era with
        | some r => Val.vs r
        | none => f) (colVals t "Era") formatted))

/-- `df['Timeline Year'] = df['Year']` when absent (load_historical_data). -/
def histTimelineYear (t : Table) : Table :=
  addColIfMissing t "Timeline Year" (colVals t "Year")

/-- The Major Events per-row combination of Event and Significance
(load_historical_data). -/
def histMajorEvents (t : Table) : Table :=
  if hasCol t "Major Events" then t
  else
    setCol t "Major Events"
      (List.zipWith majorEvents (colVals t "Event") (colVals t "Significance"))

/-- Capital Cities era lookup (load_historical_data). -/
def histCapitals (t : Table) : Table :=
  addColFromMap t "Capital Cities" "Era" capital_cities (Val.vs "Unknown")

/-- The Key Rulers/Leaders fallthrough of load_historical_data. -/
def histRulers (t : Table) : Table :=
  if !hasCol t "Key Rulers/Leaders" && hasCol t "Key Figures" then
    setCol t "Key Rulers/Leaders" (colVals t "Key Figures")
  else if !hasCol t "Key Rulers/Leaders" then
    setCol t "Key Rulers/Leaders" (constCol t.nrows (Val.vs "Various"))
  else t

/-- The eleven era reference tables of load_historical_data. -/
def histAdditional (t : Table) : Table :=
  runSteps (additional_columns.map (fun p => (p.1, mapFromCol "Era" p.2 Val.na))) t

/-- Timeline Year mirror, Major Events, Capital Cities, Key Rulers/Leaders and
the eleven era reference tables of load_historical_data. -/
def histPost (t : Table) : Table :=
  histAdditional (histRulers (histCapitals (histMajorEvents (histTimelineYear t))))

/-- The three event-specific patches of load_historical_data. -/
def histPatches (t : Table) : Except String Table := do
  let t ← patchCol t "Battle of Plassey" "Military Developments"
    "British victory through superior artillery and infantry tactics, showcasing European military advantage over traditional Indian armies."
  let t ← patchCol t "Gandhi returns" "Cultural Developments"
    "Introduction of Gandhian principles of simplicity, self-sufficiency, and non-violence that profoundly influenced Indian cultural values."
  patchCol t "Economic liberalization" "Economic Systems"
    "Dismantling of License Raj, reduction of import tariffs, opening to foreign investment, and currency devaluation to address balance of payments crisis."

/-- load_historical_data: required backfill, Time Period synthesis with era
overrides, Timeline Year mirror, Major Events, era reference tables, and the
event-specific patches.  Steps that can raise make the whole body
`Except`-valued; the exception is handled at the loader boundary. -/
def load_historical_reconcile (t : Table) : Except String Table := do
  let t ← histTimePeriod (histDefaults t)
  histPatches (histPost t)

/- ### Loader boundaries (the `try/except` around each pipeline)

A loader body either produces a table or raises; the boundary turns that into
the loader's return value.  Nine loaders return `None` from their handler;
load_education_data and load_geography_data build substitute tables. -/

/-- The `except Exception: st.error(...); return None` boundary shared by
load_linguistic/religious/state/cultural/population/economic/historical/
festivals/tourism_data. -/
def loaderBoundaryNone (p : Except String Table) : Option Table :=
  match p with
  | .ok t => some t
  | .error _ => none

/-- The one-row substitute table built by load_education_data's except
handler: `pd.DataFrame({col: [val] for col, val in expected_columns.items()})`. -/
def educationFallbackTable : Table :=
  ⟨1, expected_columns.map (fun p => (p.1, [p.2]))⟩

/-- load_education_data's boundary: on exception it returns the substitute
table, not None. -/
def load_education_boundary (p : Except String Table) : Option Table :=
  match p with
  | .ok t => some t
  | .error _ => some educationFallbackTable

/-- load_geography_data's boundary: on exception it returns the sample
terrain table, not None. -/
def load_geography_boundary (p : Except String Table) : Option Table :=
  match p with
  | .ok t => some t
  | .error _ => some terrain_data

/- ### Chapter-level composite-field parsing (education_landscape.py)

Each definition is the inline parse expression at the cited line, as a
function of the cell it reads. -/

/-- Line 68: `df['State Names'].iloc[0].split(', ') if isinstance(..., str)
else []`.  Total: splitting never raises. -/
def parseStringList (v : Val) : List String :=
  match v with
  | .vs s => (charSplitOn s.toList [',', ' ']).map String.mk
  | _ => []

/-- Lines 69-72 / 446-447: `[float(x) for x in cell.split(', ')] if
isinstance(cell, str) else []`.  `float` raises ValueError on malformed
tokens. -/
def parseFloatList (v : Val) : Except String (List Rat) :=
  match v with
  | .vs s => (charSplitOn s.toList [',', ' ']).mapM (fun cs => pyFloat (String.mk cs))
  | _ => .ok []

/-- Lines 252-254: `float(cell.replace('1:', '')) if isinstance(cell, str)
else 0` — the teacher-student colon-ratio conversion. -/
def ratioToNum (v : Val) : Except String Rat :=
  match v with
  | .vs s => pyFloat (String.mk (charReplace s.toList ['1', ':'] []))
  | _ => .ok 0

/-- Lines 296-297: `float(cell.split('/')[0]) if isinstance(cell, str) else
0` — the slash-fraction numerator conversion. -/
def fractionHeadToNum (v : Val) : Except String Rat :=
  match v with
  | .vs s => pyFloat (String.mk ((charSplitOn s.toList ['/']).headD []))
  | _ => .ok 0

/-- Lines 293-295: `float(cell) if isinstance(cell, str) else 0`. -/
def scalarToNum (v : Val) : Except String Rat :=
  match v with
  | .vs s => pyFloat s
  | _ => .ok 0

/-- Lines 75-85 / 450-457: truncate row-aligned lists to the minimum common
length before zipping (`min_length = min(len(a), len(b), len(c))`,
`a[:min_length]`, ...). -/
def alignMin3 {α β γ : Type} (xs : List α) (ys : List β) (zs : List γ) :
    List α × List β × List γ :=
  let m := min (min xs.length ys.length) zs.length
  (xs.take m, ys.take m, zs.take m)

/- ### Historical-timeline chronology (historical_timeline.py, render) -/

/-- Line 39: `df['Time Period'].str.extract(r'(\d+)').astype(int)` on one
cell — the first digit run, as an integer. -/
def startYearExtract (s : String) : Option Int :=
  (firstRunBy isDigitChar s.toList).map (fun ds => ((natOfDigits ds : Nat) : Int))

/-- Line 42: `df['Time Period'].str.contains('BCE')`. -/
def bceFlag (s : String) : Bool :=
  containsSub s "BCE"

/-- Lines 39-43 combined: the signed Timeline Year derived from a Time
Period string. -/
def timelineYear (s : String) : Option Int :=
  (startYearExtract s).map (fun n => if bceFlag s then -n else n)

/-- Line 46: `df.sort_values('Timeline Year')` on rows carrying their derived
Timeline Year key (stable ascending sort). -/
def sortChrono (rows : List (String × Int)) : List (String × Int) :=
  List.insertionSort (fun a b => a.2 ≤ b.2) rows

/- ### Predicates, concrete tables and order instances used in the claim
analyses -/

/-- Is the cell a Python `str`? -/
def isStringVal : Val → Bool
  | .vs _ => true
  | _ => false

/-- A raw festivals table in which every required column, including Month, is
present with non-null values, alongside a Season column. -/
def c2RawTable : Table :=
  ⟨1, [("Festival", [.vs "Diwali"]), ("Religion", [.vs "Hindu"]),
       ("Region", [.vs "All India"]), ("Month", [.vs "December"]),
       ("Season", [.vs "October-November"])]⟩

/-- A raw festivals table with Month present and Season absent. -/
def c2NoSeasonTable : Table :=
  ⟨1, [("Festival", [.vs "Holi"]), ("Religion", [.vs "Hindu"]),
       ("Region", [.vs "North India"]), ("Month", [.vs "March"])]⟩

/-- A raw population table with a malformed Population cell. -/
def c8PopTable : Table :=
  ⟨1, [("Year", [.vi 2000]), ("Population (millions)", [.vs "abc"])]⟩

/-- A raw population table holding one historical and one projected row. -/
def c9Table : Table :=
  ⟨2, [("Year", [.vi 2000, .vi 2090]),
       ("Population (millions)", [.vi 1, .vi 2])]⟩

/-- A geography table lacking the Terrain_Type column. -/
def c10Table : Table := ⟨1, [("Percentage", [.vi 1])]⟩

/-- A zero-row historical table on which every column the historical pipeline
consults or creates is already present, so the reconciliation succeeds. -/
def histWitnessTable : Table :=
  ⟨0, [("Year", []), ("Era", []), ("Event", []), ("Significance", []),
       ("Time Period", []), ("Timeline Year", []), ("Major Events", []),
       ("Capital Cities", []), ("Key Rulers/Leaders", []),
       ("Cultural Developments", []), ("Religious Trends", []),
       ("Economic Systems", []), ("Art & Architecture", []),
       ("Territorial Extent", []), ("Social Structure", []),
       ("Scientific Advances", []), ("Technological Innovations", []),
       ("Military Developments", []), ("Foreign Relations", []),
       ("Historical Legacy", [])]⟩

instance : IsTotal (String × Int) (fun a b => a.2 ≤ b.2) :=
  ⟨fun a b => Int.le_total a.2 b.2⟩

instance : IsTrans (String × Int) (fun a b => a.2 ≤ b.2) :=
  ⟨fun _ _ _ h1 h2 => le_trans h1 h2⟩

/- ### Infrastructure lemmas on tables and masks -/

theorem setColList_any_self (ps : List (String × List Val)) (c : String) (xs : List Val) :
    (setColList ps c xs).any (fun p => p.1 == c) = true := by
  induction ps with
  | nil => simp [setColList]
  | cons p ps ih =>
    by_cases h : p.1 = c
    · simp [setColList, h]
    · simp [setColList, h, ih]

theorem setColList_any_of (ps : List (String × List Val)) (c d : String) (xs : List Val)
    (h : ps.any (fun p => p.1 == d) = true) :
    (setColList ps c xs).any (fun p => p.1 == d) = true := by
  induction ps with
  | nil => simp at h
  | cons p ps ih =>
    simp only [List.any_cons, Bool.or_eq_true, beq_iff_eq] at h
    by_cases hc : p.1 = c
    · simp only [setColList, beq_iff_eq, if_pos hc, List.any_cons, Bool.or_eq_true, beq_iff_eq]
      rcases h with h | h
      · exact Or.inl (hc.symm.trans h)
      · exact Or.inr h
    · simp only [setColList, beq_iff_eq, if_neg hc, List.any_cons, Bool.or_eq_true, beq_iff_eq]
      rcases h with h | h
      · exact Or.inl h
      · exact Or.inr (ih (by simp [h]))

theorem setColList_any_ne (ps : List (String × List Val)) (c d : String) (xs : List Val)
    (h : d ≠ c) :
    (setColList ps c xs).any (fun p => p.1 == d) = ps.any (fun p => p.1 == d) := by
  induction ps with
  | nil => simp [setColList, Ne.symm h]
  | cons p ps ih =>
    by_cases hc : p.1 = c
    · simp [setColList, hc, Ne.symm h]
    · simp [setColList, hc, ih]

theorem find?_setColList_self (ps : List (String × List Val)) (c : String) (xs : List Val) :
    (setColList ps c xs).find? (fun p => p.1 == c) = some (c, xs) := by
  induction ps with
  | nil => simp [setColList]
  | cons p ps ih =>
    by_cases h : p.1 = c
    · simp [setColList, h]
    · simp only [setColList, beq_iff_eq, if_neg h]
      rw [List.find?_cons_of_neg _ (by simp [h])]
      exact ih

theorem find?_setColList_ne (ps : List (String × List Val)) (c d : String) (xs : List Val)
    (h : d ≠ c) :
    (setColList ps c xs).find? (fun p => p.1 == d) = ps.find? (fun p => p.1 == d) := by
  induction ps with
  | nil =>
    simp only [setColList, List.find?_nil]
    rw [List.find?_cons_of_neg _ (by simp [Ne.symm h]), List.find?_nil]
  | cons p ps ih =>
    by_cases hc : p.1 = c
    · simp only [setColList, beq_iff_eq, if_pos hc]
      rw [List.find?_cons_of_neg _ (by simp [Ne.symm h]),
        List.find?_cons_of_neg _ (by simp [hc, Ne.symm h])]
    · simp only [setColList, beq_iff_eq, if_neg hc]
      by_cases hd : p.1 = d
      · rw [List.find?_cons_of_pos _ (by simp [hd]), List.find?_cons_of_pos _ (by simp [hd])]
      · rw [List.find?_cons_of_neg _ (by simp [hd]), List.find?_cons_of_neg _ (by simp [hd])]
        exact ih

theorem setColList_eq_self (ps : List (String × List Val)) (c : String) (xs : List Val)
    (h : ps.find? (fun p => p.1 == c) = some (c, xs)) : setColList ps c xs = ps := by
  induction ps with
  | nil => simp at h
  | cons p ps ih =>
    by_cases hc : p.1 = c
    · rw [List.find?_cons_of_pos _ (by simp [hc])] at h
      have hp : p = (c, xs) := by injection h
      simp [setColList, hc, hp]
    · rw [List.find?_cons_of_neg _ (by simp [hc])] at h
      simp only [setColList, beq_iff_eq, if_neg hc]
      rw [ih h]

theorem nrows_setCol (t : Table) (c : String) (xs : List Val) :
    (setCol t c xs).nrows = t.nrows := rfl

theorem hasCol_setCol_self (t : Table) (c : String) (xs : List Val) :
    hasCol (setCol t c xs) c = true :=
  setColList_any_self t.cols c xs

theorem hasCol_setCol_of (t : Table) (c d : String) (xs : List Val)
    (h : hasCol t d = true) : hasCol (setCol t c xs) d = true :=
  setColList_any_of t.cols c d xs h

theorem hasCol_setCol_ne (t : Table) (c d : String) (xs : List Val) (h : d ≠ c) :
    hasCol (setCol t c xs) d = hasCol t d :=
  setColList_any_ne t.cols c d xs h

theorem getCol_setCol_self (t : Table) (c : String) (xs : List Val) :
    getCol (setCol t c xs) c = some xs := by
  unfold getCol setCol
  rw [find?_setColList_self]
  rfl

theorem getCol_setCol_ne (t : Table) (c d : String) (xs : List Val) (h : d ≠ c) :
    getCol (setCol t c xs) d = getCol t d := by
  unfold getCol setCol
  rw [find?_setColList_ne _ _ _ _ h]

theorem setCol_eq_self (t : Table) (c : String) (xs : List Val)
    (h : getCol t c = some xs) : setCol t c xs = t := by
  unfold getCol at h
  obtain ⟨p, hp, hsnd⟩ : ∃ p, t.cols.find? (fun q => q.1 == c) = some p ∧ p.2 = xs := by
    cases hf : t.cols.find? (fun q => q.1 == c) with
    | none => rw [hf] at h; simp at h
    | some p => rw [hf] at h; exact ⟨p, rfl, by simpa using h⟩
  have hfst : p.1 = c := by
    have := List.find?_some hp
    simpa using this
  have hp2 : t.cols.find? (fun q => q.1 == c) = some (c, xs) := by
    rw [hp]
    cases p
    simp_all
  unfold setCol
  rw [setColList_eq_self t.cols c xs hp2]

theorem addColIfMissing_of_hasCol (t : Table) (c : String) (xs : List Val)
    (h : hasCol t c = true) : addColIfMissing t c xs = t := by
  simp [addColIfMissing, h]

theorem hasCol_addColIfMissing_self (t : Table) (c : String) (xs : List Val) :
    hasCol (addColIfMissing t c xs) c = true := by
  unfold addColIfMissing
  by_cases h : hasCol t c = true
  · simp [h]
  · simp only [Bool.not_eq_true] at h
    simp [h, hasCol_setCol_self]

theorem hasCol_addColIfMissing_of (t : Table) (c d : String) (xs : List Val)
    (h : hasCol t d = true) : hasCol (addColIfMissing t c xs) d = true := by
  unfold addColIfMissing
  by_cases hc : hasCol t c = true
  · simpa [hc]
  · simp only [Bool.not_eq_true] at hc
    simp [hc, hasCol_setCol_of _ _ _ _ h]

theorem hasCol_addColIfMissing_ne (t : Table) (c d : String) (xs : List Val) (h : d ≠ c) :
    hasCol (addColIfMissing t c xs) d = hasCol t d := by
  unfold addColIfMissing
  by_cases hc : hasCol t c = true
  · simp [hc]
  · simp only [Bool.not_eq_true] at hc
    simp [hc, hasCol_setCol_ne _ _ _ _ h]

theorem getCol_addColIfMissing_ne (t : Table) (c d : String) (xs : List Val) (h : d ≠ c) :
    getCol (addColIfMissing t c xs) d = getCol t d := by
  unfold addColIfMissing
  by_cases hc : hasCol t c = true
  · simp [hc]
  · simp only [Bool.not_eq_true] at hc
    simp [hc, getCol_setCol_ne _ _ _ _ h]

theorem nrows_addColIfMissing (t : Table) (c : String) (xs : List Val) :
    (addColIfMissing t c xs).nrows = t.nrows := by
  unfold addColIfMissing
  by_cases hc : hasCol t c = true <;> simp [hc, nrows_setCol]

theorem getCol_isSome_of_hasCol (t : Table) (c : String) (h : hasCol t c = true) :
    ∃ xs, getCol t c = some xs := by
  unfold hasCol at h
  unfold getCol
  rw [List.any_eq_true] at h
  obtain ⟨p, hp, he⟩ := h
  have : (t.cols.find? (fun q => q.1 == c)).isSome := by
    rw [List.find?_isSome]
    exact ⟨p, hp, he⟩
  obtain ⟨q, hq⟩ := Option.isSome_iff_exists.mp this
  exact ⟨q.2, by rw [hq]; rfl⟩

theorem colVals_eq_of_getCol (t : Table) (c : String) (xs : List Val)
    (h : getCol t c = some xs) : colVals t c = xs := by
  unfold colVals
  rw [h]
  rfl

/- Generic lemmas about folded guarded column additions, covering both the
`expected_columns` loop of load_education_data and the `additional_columns`
loop of load_historical_data. -/

theorem hasCol_foldl_addCol_of {β : Type} (f : Table → String × β → List Val)
    (ps : List (String × β)) (t : Table) (d : String) (h : hasCol t d = true) :
    hasCol (ps.foldl (fun acc p => addColIfMissing acc p.1 (f acc p)) t) d = true := by
  induction ps generalizing t with
  | nil => exact h
  | cons p ps ih => exact ih _ (hasCol_addColIfMissing_of _ _ _ _ h)

theorem hasCol_foldl_addCol_mem {β : Type} (f : Table → String × β → List Val)
    (ps : List (String × β)) (t : Table) (p : String × β) (hp : p ∈ ps) :
    hasCol (ps.foldl (fun acc q => addColIfMissing acc q.1 (f acc q)) t) p.1 = true := by
  induction ps generalizing t with
  | nil => cases hp
  | cons q ps ih =>
    rcases List.mem_cons.mp hp with h | h
    · subst h
      exact hasCol_foldl_addCol_of f ps _ p.1 (hasCol_addColIfMissing_self _ _ _)
    · exact ih _ h

theorem foldl_addCol_eq_self {β : Type} (f : Table → String × β → List Val)
    (ps : List (String × β)) (t : Table) (h : ∀ p ∈ ps, hasCol t p.1 = true) :
    ps.foldl (fun acc p => addColIfMissing acc p.1 (f acc p)) t = t := by
  induction ps with
  | nil => rfl
  | cons p ps ih =>
    rw [List.foldl_cons, addColIfMissing_of_hasCol _ _ _ (h p (List.mem_cons_self p ps))]
    exact ih (fun q hq => h q (List.mem_cons_of_mem p hq))

theorem getCol_foldl_addCol_ne {β : Type} (f : Table → String × β → List Val)
    (ps : List (String × β)) (t : Table) (d : String) (h : ∀ p ∈ ps, d ≠ p.1) :
    getCol (ps.foldl (fun acc p => addColIfMissing acc p.1 (f acc p)) t) d = getCol t d := by
  induction ps generalizing t with
  | nil => rfl
  | cons p ps ih =>
    rw [List.foldl_cons, ih _ (fun q hq => h q (List.mem_cons_of_mem p hq)),
      getCol_addColIfMissing_ne _ _ _ _ (h p (List.mem_cons_self p ps))]

/- addColFromMap inherits everything from addColIfMissing. -/

theorem addColFromMap_of_hasCol (t : Table) (newc keyc : String)
    (dict : List (String × Val)) (dflt : Val) (h : hasCol t newc = true) :
    addColFromMap t newc keyc dict dflt = t :=
  addColIfMissing_of_hasCol _ _ _ h

/- ### Mask and coercion lemmas (load_population_data) -/

theorem pdToNumeric_idem (v : Val) : pdToNumeric (pdToNumeric v) = pdToNumeric v := by
  cases v with
  | vs s =>
    simp only [pdToNumeric]
    cases pyInt s with
    | ok n => rfl
    | error e =>
      cases pyFloat s with
      | ok q => rfl
      | error e2 => rfl
  | vi n => rfl
  | vf q => rfl
  | na => rfl

theorem applyMask_map (bs : List Bool) (l : List Val) (f : Val → Val) :
    applyMask bs (l.map f) = (applyMask bs l).map f := by
  induction bs generalizing l with
  | nil => cases l <;> simp [applyMask]
  | cons b bs ih =>
    cases l with
    | nil => simp [applyMask]
    | cons v vs =>
      simp only [List.map_cons, applyMask]
      by_cases hb : b = true
      · simp [hb, ih]
      · simp only [Bool.not_eq_true] at hb
        simp [hb, ih]

theorem applyMask_map_self (p : Val → Bool) (l : List Val) :
    applyMask (l.map p) l = l.filter p := by
  induction l with
  | nil => rfl
  | cons v vs ih =>
    simp only [List.map_cons, applyMask, List.filter_cons]
    by_cases hp : p v = true
    · simp [hp, ih]
    · simp only [Bool.not_eq_true] at hp
      simp [hp, ih]

theorem mem_applyMask (bs : List Bool) (l : List Val) (v : Val)
    (h : v ∈ applyMask bs l) : v ∈ l := by
  induction bs generalizing l with
  | nil => cases l <;> simp [applyMask] at h
  | cons b bs ih =>
    cases l with
    | nil => simp [applyMask] at h
    | cons w ws =>
      simp only [applyMask] at h
      by_cases hb : b = true
      · rw [if_pos hb] at h
        rcases List.mem_cons.mp h with h | h
        · exact h ▸ List.mem_cons_self w ws
        · exact List.mem_cons_of_mem w (ih ws h)
      · simp only [Bool.not_eq_true] at hb
        rw [hb] at h
        simp only [Bool.false_eq_true, if_false] at h
        exact List.mem_cons_of_mem w (ih ws h)

theorem length_applyMask_le_countTrue (bs : List Bool) (l : List Val) :
    (applyMask bs l).length ≤ countTrue bs := by
  induction bs generalizing l with
  | nil => cases l <;> simp [applyMask]
  | cons b bs ih =>
    cases l with
    | nil => simp [applyMask]
    | cons w ws =>
      simp only [applyMask, countTrue, List.filter_cons]
      by_cases hb : b = true
      · simp only [hb, if_true, id]
        simpa [countTrue] using Nat.succ_le_succ (ih ws)
      · simp only [Bool.not_eq_true] at hb
        subst hb
        simpa [countTrue] using ih ws

theorem applyMask_all_true (bs : List Bool) (l : List Val)
    (hb : ∀ b ∈ bs, b = true) (hl : l.length ≤ bs.length) : applyMask bs l = l := by
  induction bs generalizing l with
  | nil =>
    cases l with
    | nil => rfl
    | cons v vs => simp at hl
  | cons b bs ih =>
    cases l with
    | nil => simp [applyMask]
    | cons v vs =>
      have hbt : b = true := hb b (List.mem_cons_self b bs)
      simp only [applyMask, hbt, if_true]
      rw [ih vs (fun x hx => hb x (List.mem_cons_of_mem b hx)) (by simpa using hl)]

theorem countTrue_all_true (bs : List Bool) (hb : ∀ b ∈ bs, b = true) :
    countTrue bs = bs.length := by
  induction bs with
  | nil => rfl
  | cons b bs ih =>
    have hbt : b = true := hb b (List.mem_cons_self b bs)
    simp only [countTrue, List.filter_cons, hbt, id, if_true]
    simp only [countTrue] at ih
    simp [ih (fun x hx => hb x (List.mem_cons_of_mem b hx))]

theorem countTrue_map_eq_length_filter (p : Val → Bool) (l : List Val) :
    countTrue (l.map p) = (l.filter p).length := by
  induction l with
  | nil => rfl
  | cons v vs ih =>
    simp only [countTrue, List.map_cons, List.filter_cons] at *
    by_cases hp : p v = true
    · simp [hp, ih]
    · simp only [Bool.not_eq_true] at hp
      simp [hp, ih]

theorem find?_map_keyed (ps : List (String × List Val)) (g : List Val → List Val)
    (c : String) :
    (ps.map (fun p => (p.1, g p.2))).find? (fun p => p.1 == c) =
      (ps.find? (fun p => p.1 == c)).map (fun p => (p.1, g p.2)) := by
  induction ps with
  | nil => rfl
  | cons p ps ih =>
    by_cases h : p.1 = c
    · rw [List.map_cons, List.find?_cons_of_pos _ (by simp [h]),
        List.find?_cons_of_pos _ (by simp [h])]
      rfl
    · rw [List.map_cons, List.find?_cons_of_neg _ (by simp [h]),
        List.find?_cons_of_neg _ (by simp [h])]
      exact ih

theorem getCol_filterYearLE (t : Table) (y : Int) (c : String) :
    getCol (filterYearLE t y) c =
      (getCol t c).map (applyMask ((colVals t "Year").map (fun v => valLE v y))) := by
  unfold filterYearLE getCol
  simp only
  rw [find?_map_keyed]
  cases t.cols.find? (fun p => p.1 == c) <;> rfl

theorem hasCol_filterYearLE (t : Table) (y : Int) (c : String) :
    hasCol (filterYearLE t y) c = hasCol t c := by
  unfold filterYearLE hasCol
  simp only
  rw [List.any_map]
  rfl

theorem nrows_filterYearLE (t : Table) (y : Int) :
    (filterYearLE t y).nrows = countTrue ((colVals t "Year").map (fun v => valLE v y)) := rfl

/- ### Generic lemmas about step blocks -/

theorem hasCol_foldl_addCol_ne {β : Type} (f : Table → String × β → List Val)
    (ps : List (String × β)) (t : Table) (d : String) (h : ∀ p ∈ ps, d ≠ p.1) :
    hasCol (ps.foldl (fun acc p => addColIfMissing acc p.1 (f acc p)) t) d = hasCol t d := by
  induction ps generalizing t with
  | nil => rfl
  | cons p ps ih =>
    rw [List.foldl_cons, ih _ (fun q hq => h q (List.mem_cons_of_mem p hq)),
      hasCol_addColIfMissing_ne _ _ _ _ (h p (List.mem_cons_self p ps))]

theorem runSteps_hasCol_of (ps : List (String × (Table → List Val))) (t : Table)
    (d : String) (h : hasCol t d = true) : hasCol (runSteps ps t) d = true :=
  hasCol_foldl_addCol_of (fun (acc : Table) (p : String × (Table → List Val)) => p.2 acc) ps t d h

theorem runSteps_hasCol_mem (ps : List (String × (Table → List Val))) (t : Table)
    (p : String × (Table → List Val)) (hp : p ∈ ps) :
    hasCol (runSteps ps t) p.1 = true :=
  hasCol_foldl_addCol_mem (fun (acc : Table) (q : String × (Table → List Val)) => q.2 acc) ps t p hp

theorem runSteps_hasCol_key (ps : List (String × (Table → List Val))) (t : Table)
    (c : String) (hc : c ∈ ps.map Prod.fst) : hasCol (runSteps ps t) c = true := by
  obtain ⟨p, hp, rfl⟩ := List.mem_map.mp hc
  exact runSteps_hasCol_mem ps t p hp

theorem runSteps_eq_self (ps : List (String × (Table → List Val))) (t : Table)
    (h : ∀ p ∈ ps, hasCol t p.1 = true) : runSteps ps t = t :=
  foldl_addCol_eq_self (fun (acc : Table) (q : String × (Table → List Val)) => q.2 acc) ps t h

theorem runSteps_idem (ps : List (String × (Table → List Val))) (t : Table) :
    runSteps ps (runSteps ps t) = runSteps ps t :=
  runSteps_eq_self ps _ (fun p hp => runSteps_hasCol_mem ps t p hp)

theorem runSteps_getCol_ne (ps : List (String × (Table → List Val))) (t : Table)
    (d : String) (h : ∀ p ∈ ps, d ≠ p.1) : getCol (runSteps ps t) d = getCol t d :=
  getCol_foldl_addCol_ne (fun (acc : Table) (q : String × (Table → List Val)) => q.2 acc) ps t d h

theorem runSteps_hasCol_ne (ps : List (String × (Table → List Val))) (t : Table)
    (d : String) (h : ∀ p ∈ ps, d ≠ p.1) : hasCol (runSteps ps t) d = hasCol t d :=
  hasCol_foldl_addCol_ne (fun (acc : Table) (q : String × (Table → List Val)) => q.2 acc) ps t d h

/- ### Idempotence of the reconciliation bodies -/

theorem load_linguistic_reconcile_idem (t : Table) :
    load_linguistic_reconcile (load_linguistic_reconcile t) = load_linguistic_reconcile t :=
  runSteps_idem _ t

theorem load_religious_reconcile_idem (t : Table) :
    load_religious_reconcile (load_religious_reconcile t) = load_religious_reconcile t :=
  runSteps_idem _ t

theorem load_economic_reconcile_idem (t : Table) :
    load_economic_reconcile (load_economic_reconcile t) = load_economic_reconcile t :=
  runSteps_idem _ t

theorem load_state_reconcile_idem (t : Table) :
    load_state_reconcile (load_state_reconcile t) = load_state_reconcile t :=
  runSteps_idem _ t

theorem load_education_reconcile_idem (t : Table) :
    load_education_reconcile (load_education_reconcile t) = load_education_reconcile t :=
  runSteps_idem _ t

theorem load_geography_reconcile_idem (t : Table) :
    load_geography_reconcile (load_geography_reconcile t) = load_geography_reconcile t := by
  unfold load_geography_reconcile
  by_cases h : (!hasCol t "Terrain_Type" || !hasCol t "Percentage") = true
  · rw [if_pos h, ite_self]
  · rw [if_neg h, if_neg h]

theorem load_tourism_reconcile_fix (u : Table)
    (h1 : hasCol u "Destination" = true) (h2 : hasCol u "State" = true)
    (h3 : hasCol u "Type" = true) (h4 : hasCol u "Visitors_Annual" = true) :
    load_tourism_reconcile u = u := by
  have hr : runSteps [
      ("Destination", fun t => seqLabels "Destination " t.nrows),
      ("State", fun t => constCol t.nrows (Val.vs "Unknown")),
      ("Type", fun t => constCol t.nrows (Val.vs "Monument")),
      ("Visitors_Annual", fun t => constCol t.nrows (Val.vi 0))] u = u := by
    apply runSteps_eq_self
    intro p hp
    simp only [List.mem_cons, List.not_mem_nil, or_false] at hp
    rcases hp with rfl | rfl | rfl | rfl
    · exact h1
    · exact h2
    · exact h3
    · exact h4
  simp only [load_tourism_reconcile, h1, h2, h3, h4, Bool.not_true, Bool.and_false,
    Bool.false_eq_true, if_false, hr]

theorem load_tourism_reconcile_idem (t : Table) :
    load_tourism_reconcile (load_tourism_reconcile t) = load_tourism_reconcile t := by
  have hkey : ∀ c ∈ ["Destination", "State", "Type", "Visitors_Annual"],
      hasCol (load_tourism_reconcile t) c = true := by
    intro c hc
    unfold load_tourism_reconcile
    apply runSteps_hasCol_key
    simpa using hc
  apply load_tourism_reconcile_fix <;> [skip; skip; skip; skip] <;>
    apply hkey <;> simp

theorem hasCol_ite_of {c : Prop} [Decidable c] {a b : Table} {d : String}
    (ha : hasCol a d = true) (hb : hasCol b d = true) :
    hasCol (if c then a else b) d = true := by
  split <;> assumption

theorem culturalHeritage_hasCol_of (t : Table) (d : String) (h : hasCol t d = true) :
    hasCol (culturalHeritage t) d = true := by
  unfold culturalHeritage
  exact hasCol_ite_of (hasCol_setCol_of _ _ _ _ h) h

theorem culturalHeritage_fix (u : Table) (h : hasCol u "Heritage_Type" = true) :
    culturalHeritage u = u := by
  simp [culturalHeritage, h]

theorem culturalHeritage_creates (t : Table) (hCE : hasCol t "Cultural Element" = true) :
    hasCol (culturalHeritage t) "Heritage_Type" = true := by
  unfold culturalHeritage
  by_cases hHT : hasCol t "Heritage_Type" = true
  · simp [hHT]
  · simp only [Bool.not_eq_true] at hHT
    simp [hHT, hCE, hasCol_setCol_self]

theorem culturalName_hasCol_of (t : Table) (d : String) (h : hasCol t d = true) :
    hasCol (culturalName t) d = true :=
  hasCol_addColIfMissing_of _ _ _ _ h

theorem culturalName_fix (u : Table) (h : hasCol u "Name" = true) : culturalName u = u :=
  addColIfMissing_of_hasCol _ _ _ h

theorem culturalName_creates (t : Table) : hasCol (culturalName t) "Name" = true :=
  hasCol_addColIfMissing_self _ _ _

theorem culturalState_hasCol_of (t : Table) (d : String) (h : hasCol t d = true) :
    hasCol (culturalState t) d = true := by
  unfold culturalState
  exact hasCol_ite_of (hasCol_setCol_of _ _ _ _ h)
    (hasCol_ite_of (hasCol_setCol_of _ _ _ _ h)
      (hasCol_ite_of (hasCol_setCol_of _ _ _ _ h) h))

theorem culturalState_fix (u : Table) (h : hasCol u "State" = true) : culturalState u = u := by
  simp [culturalState, h]

theorem culturalState_creates (t : Table) (hR : hasCol t "Region of Origin" = true) :
    hasCol (culturalState t) "State" = true := by
  unfold culturalState
  by_cases hS : hasCol t "State" = true
  · simp [hS]
  · simp only [Bool.not_eq_true] at hS
    simp only [hS, hR, Bool.not_false, Bool.true_and, Bool.and_true, if_true]
    split
    · exact hasCol_setCol_self _ _ _
    · exact hasCol_setCol_self _ _ _

theorem culturalYear_hasCol_of (t : Table) (d : String) (h : hasCol t d = true) :
    hasCol (culturalYear t) d = true := by
  unfold culturalYear
  exact hasCol_ite_of (hasCol_setCol_of _ _ _ _ h)
    (hasCol_ite_of (hasCol_setCol_of _ _ _ _ h) h)

theorem culturalYear_fix (u : Table) (h : hasCol u "Year" = true) : culturalYear u = u := by
  simp [culturalYear, h]

theorem culturalYear_creates (t : Table) (hH : hasCol t "Historical Period" = true) :
    hasCol (culturalYear t) "Year" = true := by
  unfold culturalYear
  by_cases hY : hasCol t "Year" = true
  · simp [hY]
  · simp only [Bool.not_eq_true] at hY
    simp only [hY, hH, Bool.not_false, Bool.true_and, Bool.and_true, if_true]
    exact hasCol_setCol_self _ _ _

theorem load_cultural_reconcile_fix (u : Table)
    (h1 : hasCol u "Cultural Element" = true) (h2 : hasCol u "Count" = true)
    (h3 : hasCol u "Description" = true) (h4 : hasCol u "Historical Period" = true)
    (h5 : hasCol u "Region of Origin" = true) (h6 : hasCol u "Heritage_Type" = true)
    (h7 : hasCol u "Name" = true) (h8 : hasCol u "State" = true)
    (h9 : hasCol u "Year" = true) :
    load_cultural_reconcile u = u := by
  have hreq : culturalRequired u = u := by
    apply runSteps_eq_self
    intro p hp
    simp only [List.mem_cons, List.not_mem_nil, or_false] at hp
    rcases hp with rfl | rfl | rfl | rfl | rfl
    · exact h1
    · exact h2
    · exact h3
    · exact h4
    · exact h5
  unfold load_cultural_reconcile
  rw [hreq, culturalHeritage_fix u h6, culturalName_fix u h7, culturalState_fix u h8,
    culturalYear_fix u h9]

theorem load_cultural_reconcile_idem (t : Table) :
    load_cultural_reconcile (load_cultural_reconcile t) = load_cultural_reconcile t := by
  have key : ∀ c ∈ ["Cultural Element", "Count", "Description", "Historical Period",
      "Region of Origin"], hasCol (load_cultural_reconcile t) c = true := by
    intro c hc
    unfold load_cultural_reconcile
    apply culturalYear_hasCol_of
    apply culturalState_hasCol_of
    apply culturalName_hasCol_of
    apply culturalHeritage_hasCol_of
    apply runSteps_hasCol_key
    simpa [culturalRequired] using hc
  apply load_cultural_reconcile_fix
  · exact key _ (by simp)
  · exact key _ (by simp)
  · exact key _ (by simp)
  · exact key _ (by simp)
  · exact key _ (by simp)
  · unfold load_cultural_reconcile
    apply culturalYear_hasCol_of
    apply culturalState_hasCol_of
    apply culturalName_hasCol_of
    apply culturalHeritage_creates
    apply runSteps_hasCol_key
    simp [culturalRequired]
  · unfold load_cultural_reconcile
    apply culturalYear_hasCol_of
    apply culturalState_hasCol_of
    exact culturalName_creates _
  · unfold load_cultural_reconcile
    apply culturalYear_hasCol_of
    apply culturalState_creates
    apply culturalName_hasCol_of
    apply culturalHeritage_hasCol_of
    apply runSteps_hasCol_key
    simp [culturalRequired]
  · unfold load_cultural_reconcile
    apply culturalYear_creates
    apply culturalState_hasCol_of
    apply culturalName_hasCol_of
    apply culturalHeritage_hasCol_of
    apply runSteps_hasCol_key
    simp [culturalRequired]

theorem hasCol_condSet_of (t : Table) (g : Bool) (c d : String) (xs : List Val)
    (h : hasCol t d = true) :
    hasCol (if g = true then setCol t c xs else t) d = true :=
  hasCol_ite_of (hasCol_setCol_of _ _ _ _ h) h

theorem hasCol_condSet_ne (t : Table) (g : Bool) (c d : String) (xs : List Val)
    (hne : d ≠ c) :
    hasCol (if g = true then setCol t c xs else t) d = hasCol t d := by
  split
  · exact hasCol_setCol_ne _ _ _ _ hne
  · rfl

theorem getCol_condSet_ne (t : Table) (g : Bool) (c d : String) (xs : List Val)
    (hne : d ≠ c) :
    getCol (if g = true then setCol t c xs else t) d = getCol t d := by
  split
  · exact getCol_setCol_ne _ _ _ _ hne
  · rfl

/- festMappings -/

theorem festMappings_hasCol_of (t : Table) (d : String) (h : hasCol t d = true) :
    hasCol (festMappings t) d = true := by
  unfold festMappings
  apply hasCol_condSet_of
  apply hasCol_condSet_of
  apply hasCol_condSet_of
  exact h

theorem festMappings_fix (u : Table) (h1 : hasCol u "Religion" = true)
    (h2 : hasCol u "Region" = true) (h3 : hasCol u "Month" = true) :
    festMappings u = u := by
  simp [festMappings, h1, h2, h3]

theorem festMappings_getCol_season (t : Table) :
    getCol (festMappings t) "Season" = getCol t "Season" := by
  unfold festMappings
  rw [getCol_condSet_ne _ _ _ _ _ (by decide), getCol_condSet_ne _ _ _ _ _ (by decide),
    getCol_condSet_ne _ _ _ _ _ (by decide)]

theorem festMappings_hasCol_season (t : Table) :
    hasCol (festMappings t) "Season" = hasCol t "Season" := by
  unfold festMappings
  rw [hasCol_condSet_ne _ _ _ _ _ (by decide), hasCol_condSet_ne _ _ _ _ _ (by decide),
    hasCol_condSet_ne _ _ _ _ _ (by decide)]

/- festMonth -/

theorem festMonth_hasCol_of (t : Table) (d : String) (h : hasCol t d = true) :
    hasCol (festMonth t) d = true := by
  unfold festMonth
  exact hasCol_condSet_of _ _ _ _ _ h

theorem festMonth_fix_noSeason (u : Table) (h : hasCol u "Season" = false) :
    festMonth u = u := by
  simp [festMonth, h]

theorem festMonth_fix_val (u : Table)
    (hval : getCol u "Month" = some ((colVals u "Season").map monthExtract)) :
    festMonth u = u := by
  unfold festMonth
  split
  · exact setCol_eq_self _ _ _ hval
  · rfl

theorem festMonth_month_val (t : Table) (hS : hasCol t "Season" = true)
    (hM : hasCol t "Month" = true) :
    getCol (festMonth t) "Month" = some ((colVals t "Season").map monthExtract) := by
  unfold festMonth
  rw [if_pos (by simp [hS, hM])]
  exact getCol_setCol_self _ _ _

theorem festMonth_getCol_season (t : Table) :
    getCol (festMonth t) "Season" = getCol t "Season" := by
  unfold festMonth
  exact getCol_condSet_ne _ _ _ _ _ (by decide)

theorem festMonth_hasCol_season (t : Table) :
    hasCol (festMonth t) "Season" = hasCol t "Season" := by
  unfold festMonth
  exact hasCol_condSet_ne _ _ _ _ _ (by decide)

/- festRefs -/

theorem festRefSteps_ne (d : String) (hA : d ≠ "Participants (millions)")
    (hB : d ≠ "Tourist Attraction Level") (hC : d ≠ "Global Celebrations") :
    ∀ p ∈ festRefSteps, d ≠ p.1 := by
  intro p hp
  simp only [festRefSteps, List.mem_cons, List.not_mem_nil, or_false] at hp
  rcases hp with rfl | rfl | rfl
  · exact hA
  · exact hB
  · exact hC

theorem festRefs_hasCol_of (t : Table) (d : String) (h : hasCol t d = true) :
    hasCol (festRefs t) d = true := by
  unfold festRefs addColFromMap
  apply runSteps_hasCol_of
  apply hasCol_condSet_of
  exact hasCol_addColIfMissing_of _ _ _ _ h

theorem festRefs_getCol_ne (t : Table) (d : String)
    (h1 : d ≠ "Environmental Impact") (h2 : d ≠ "Economic Impact (Millions USD)")
    (h3 : d ≠ "Participants (millions)") (h4 : d ≠ "Tourist Attraction Level")
    (h5 : d ≠ "Global Celebrations") :
    getCol (festRefs t) d = getCol t d := by
  unfold festRefs addColFromMap
  rw [runSteps_getCol_ne _ _ _ (festRefSteps_ne d h3 h4 h5),
    getCol_condSet_ne _ _ _ _ _ h2, getCol_addColIfMissing_ne _ _ _ _ h1]

theorem festRefs_hasCol_season (t : Table) :
    hasCol (festRefs t) "Season" = hasCol t "Season" := by
  unfold festRefs addColFromMap
  rw [runSteps_hasCol_ne _ _ _ (festRefSteps_ne _ (by decide) (by decide) (by decide)),
    hasCol_condSet_ne _ _ _ _ _ (by decide), hasCol_addColIfMissing_ne _ _ _ _ (by decide)]

theorem festRefs_ecoGuard (t : Table) :
    (!hasCol (festRefs t) "Economic Impact (Millions USD)" &&
      !hasCol (festRefs t) "Economic Impact (USD millions)") = false := by
  unfold festRefs addColFromMap
  rw [runSteps_hasCol_ne _ _ _ (festRefSteps_ne _ (by decide) (by decide) (by decide)),
    runSteps_hasCol_ne _ _ _ (festRefSteps_ne _ (by decide) (by decide) (by decide))]
  split
  · simp [hasCol_setCol_self, hasCol_setCol_ne _ _ _ _
      (show "Economic Impact (USD millions)" ≠ "Economic Impact (Millions USD)" by decide)]
  · rename_i h
    simpa using h

theorem festRefs_fix (u : Table) (hEnv : hasCol u "Environmental Impact" = true)
    (hEco : (!hasCol u "Economic Impact (Millions USD)" &&
      !hasCol u "Economic Impact (USD millions)") = false)
    (hPart : hasCol u "Participants (millions)" = true)
    (hTour : hasCol u "Tourist Attraction Level" = true)
    (hGlob : hasCol u "Global Celebrations" = true) :
    festRefs u = u := by
  have hr : runSteps festRefSteps u = u := by
    apply runSteps_eq_self
    intro p hp
    simp only [festRefSteps, List.mem_cons, List.not_mem_nil, or_false] at hp
    rcases hp with rfl | rfl | rfl
    · exact hPart
    · exact hTour
    · exact hGlob
  simp [festRefs, addColFromMap_of_hasCol, hEnv, hEco, hr]

theorem load_festivals_reconcile_fix (u : Table)
    (hF : hasCol u "Festival" = true) (hR : hasCol u "Religion" = true)
    (hRg : hasCol u "Region" = true) (hM : hasCol u "Month" = true)
    (hEnv : hasCol u "Environmental Impact" = true)
    (hEco : (!hasCol u "Economic Impact (Millions USD)" &&
      !hasCol u "Economic Impact (USD millions)") = false)
    (hPart : hasCol u "Participants (millions)" = true)
    (hTour : hasCol u "Tourist Attraction Level" = true)
    (hGlob : hasCol u "Global Celebrations" = true)
    (hMonthVal : hasCol u "Season" = true →
      getCol u "Month" = some ((colVals u "Season").map monthExtract)) :
    load_festivals_reconcile u = u := by
  have hreq : festRequired u = u := by
    apply runSteps_eq_self
    intro p hp
    simp only [festRequiredSteps, List.mem_cons, List.not_mem_nil, or_false] at hp
    rcases hp with rfl | rfl | rfl | rfl
    · exact hF
    · exact hR
    · exact hRg
    · exact hM
  have hmon : festMonth u = u := by
    by_cases hS : hasCol u "Season" = true
    · exact festMonth_fix_val u (hMonthVal hS)
    · exact festMonth_fix_noSeason u (by simpa using hS)
  unfold load_festivals_reconcile
  rw [festMappings_fix u hR hRg hM, hreq, hmon, festRefs_fix u hEnv hEco hPart hTour hGlob]

theorem load_festivals_reconcile_idem (t : Table) :
    load_festivals_reconcile (load_festivals_reconcile t) = load_festivals_reconcile t := by
  have hkey : ∀ c ∈ ["Festival", "Religion", "Region", "Month"],
      hasCol (load_festivals_reconcile t) c = true := by
    intro c hc
    unfold load_festivals_reconcile
    apply festRefs_hasCol_of
    apply festMonth_hasCol_of
    apply runSteps_hasCol_key
    simpa [festRequiredSteps] using hc
  apply load_festivals_reconcile_fix
  · exact hkey _ (by simp)
  · exact hkey _ (by simp)
  · exact hkey _ (by simp)
  · exact hkey _ (by simp)
  · unfold load_festivals_reconcile festRefs addColFromMap
    apply runSteps_hasCol_of
    apply hasCol_condSet_of
    exact hasCol_addColIfMissing_self _ _ _
  · exact festRefs_ecoGuard _
  · unfold load_festivals_reconcile festRefs
    exact runSteps_hasCol_key _ _ _ (by simp [festRefSteps])
  · unfold load_festivals_reconcile festRefs
    exact runSteps_hasCol_key _ _ _ (by simp [festRefSteps])
  · unfold load_festivals_reconcile festRefs
    exact runSteps_hasCol_key _ _ _ (by simp [festRefSteps])
  · intro hS
    unfold load_festivals_reconcile at hS ⊢
    rw [festRefs_hasCol_season, festMonth_hasCol_season] at hS
    rw [festRefs_getCol_ne _ _ (by decide) (by decide) (by decide) (by decide) (by decide),
      festMonth_month_val _ hS (runSteps_hasCol_key _ _ _ (by simp [festRequiredSteps]))]
    simp only [colVals]
    rw [festRefs_getCol_ne _ _ (by decide) (by decide) (by decide) (by decide) (by decide),
      festMonth_getCol_season]

/- Population: coercion and filter lemmas -/

theorem map_id_of_mem {α : Type} (l : List α) (f : α → α) (h : ∀ a ∈ l, f a = a) :
    l.map f = l := by
  induction l with
  | nil => rfl
  | cons a l ih =>
    simp [h a (List.mem_cons_self a l), ih (fun b hb => h b (List.mem_cons_of_mem a hb))]

theorem setColList_any_stable (ps : List (String × List Val)) (c d : String) (xs : List Val)
    (h : ps.any (fun p => p.1 == c) = true) :
    (setColList ps c xs).any (fun p => p.1 == d) = ps.any (fun p => p.1 == d) := by
  induction ps with
  | nil => simp at h
  | cons p ps ih =>
    by_cases hc : p.1 = c
    · simp [setColList, hc]
    · simp only [List.any_cons, Bool.or_eq_true, beq_iff_eq] at h
      rcases h with h | h
      · exact absurd h hc
      · simp [setColList, hc, ih (by simp [h])]

theorem hasCol_setCol_stable (t : Table) (c d : String) (xs : List Val)
    (h : hasCol t c = true) : hasCol (setCol t c xs) d = hasCol t d :=
  setColList_any_stable t.cols c d xs h

theorem hasCol_coerce (t : Table) (c d : String) :
    hasCol (coerceNumericCol t c) d = hasCol t d := by
  unfold coerceNumericCol
  split
  · rename_i h
    exact hasCol_setCol_stable t c d _ h
  · rfl

theorem getCol_coerce_ne (t : Table) (c d : String) (h : d ≠ c) :
    getCol (coerceNumericCol t c) d = getCol t d := by
  unfold coerceNumericCol
  split
  · exact getCol_setCol_ne _ _ _ _ h
  · rfl

theorem getCol_coerce_same (t : Table) (c : String) (h : hasCol t c = true) :
    getCol (coerceNumericCol t c) c = some ((colVals t c).map pdToNumeric) := by
  unfold coerceNumericCol
  rw [if_pos h]
  exact getCol_setCol_self _ _ _

theorem coerceNumericCol_fix (u : Table) (c : String)
    (h : ∀ v ∈ colVals u c, pdToNumeric v = v) : coerceNumericCol u c = u := by
  unfold coerceNumericCol
  split
  · rename_i hc
    apply setCol_eq_self
    rw [map_id_of_mem _ _ h]
    obtain ⟨xs, hxs⟩ := getCol_isSome_of_hasCol u c hc
    rw [hxs, colVals_eq_of_getCol u c xs hxs]
  · rfl

theorem popCoerce_hasCol (t : Table) (d : String) :
    hasCol (popCoerce t) d = hasCol t d := by
  simp only [popCoerce, List.foldl]
  rw [hasCol_coerce, hasCol_coerce, hasCol_coerce, hasCol_coerce]

theorem popCoerce_getCol_year (t : Table) (h : hasCol t "Year" = true) :
    getCol (popCoerce t) "Year" = some ((colVals t "Year").map pdToNumeric) := by
  simp only [popCoerce, List.foldl]
  rw [getCol_coerce_ne _ _ _ (by decide), getCol_coerce_ne _ _ _ (by decide),
    getCol_coerce_ne _ _ _ (by decide), getCol_coerce_same _ _ h]

theorem popCoerce_getCol_pop (t : Table) (h : hasCol t "Population (millions)" = true) :
    getCol (popCoerce t) "Population (millions)" =
      some ((colVals t "Population (millions)").map pdToNumeric) := by
  simp only [popCoerce, List.foldl]
  rw [getCol_coerce_ne _ _ _ (by decide), getCol_coerce_ne _ _ _ (by decide),
    getCol_coerce_same _ _ (by rw [hasCol_coerce]; exact h)]
  rw [colVals, getCol_coerce_ne _ _ _ (by decide), ← colVals]

theorem popCoerce_getCol_urban (t : Table) (h : hasCol t "Urban Population (%)" = true) :
    getCol (popCoerce t) "Urban Population (%)" =
      some ((colVals t "Urban Population (%)").map pdToNumeric) := by
  simp only [popCoerce, List.foldl]
  rw [getCol_coerce_ne _ _ _ (by decide),
    getCol_coerce_same _ _ (by rw [hasCol_coerce, hasCol_coerce]; exact h)]
  rw [colVals, getCol_coerce_ne _ _ _ (by decide), getCol_coerce_ne _ _ _ (by decide), ← colVals]

theorem popCoerce_getCol_rural (t : Table) (h : hasCol t "Rural Population (%)" = true) :
    getCol (popCoerce t) "Rural Population (%)" =
      some ((colVals t "Rural Population (%)").map pdToNumeric) := by
  simp only [popCoerce, List.foldl]
  rw [getCol_coerce_same _ _ (by rw [hasCol_coerce, hasCol_coerce, hasCol_coerce]; exact h)]
  rw [colVals, getCol_coerce_ne _ _ _ (by decide), getCol_coerce_ne _ _ _ (by decide),
    getCol_coerce_ne _ _ _ (by decide), ← colVals]

theorem filterYearLE_fix (u : Table) (y : Int) (ys : List Val)
    (hYear : getCol u "Year" = some ys)
    (hys : ∀ v ∈ ys, valLE v y = true)
    (hn : u.nrows = ys.length)
    (hlen : ∀ p ∈ u.cols, p.2.length ≤ ys.length) :
    filterYearLE u y = u := by
  have hcv : colVals u "Year" = ys := colVals_eq_of_getCol _ _ _ hYear
  have hmask : ∀ b ∈ ys.map (fun v => valLE v y), b = true := by
    intro b hb
    obtain ⟨v, hv, rfl⟩ := List.mem_map.mp hb
    exact hys v hv
  have h1 : countTrue ((colVals u "Year").map (fun v => valLE v y)) = u.nrows := by
    rw [hcv, countTrue_all_true _ hmask, List.length_map, hn]
  have h2 : u.cols.map
      (fun p => (p.1, applyMask ((colVals u "Year").map (fun v => valLE v y)) p.2)) = u.cols := by
    rw [hcv]
    apply map_id_of_mem
    intro p hp
    rw [applyMask_all_true _ _ hmask (by rw [List.length_map]; exact hlen p hp)]
  simp only [filterYearLE]
  rw [h1, h2]

theorem population_year_col (y : Int) (t : Table) :
    getCol (load_population_reconcile y t) "Year" =
      some (((colVals (runSteps popSteps t) "Year").map pdToNumeric).filter
        (fun v => valLE v y)) := by
  unfold load_population_reconcile
  have hy8 : getCol (popCoerce (runSteps popSteps t)) "Year" =
      some ((colVals (runSteps popSteps t) "Year").map pdToNumeric) :=
    popCoerce_getCol_year _ (runSteps_hasCol_key _ _ _ (by simp [popSteps]))
  rw [getCol_filterYearLE, hy8, colVals_eq_of_getCol _ _ _ hy8]
  simp only [Option.map_some']
  rw [applyMask_map_self]

set_option maxHeartbeats 1600000 in
theorem load_population_reconcile_idem (y : Int) (t : Table) :
    load_population_reconcile y (load_population_reconcile y t) =
      load_population_reconcile y t := by
  have hY8 : getCol (popCoerce (runSteps popSteps t)) "Year" =
      some ((colVals (runSteps popSteps t) "Year").map pdToNumeric) :=
    popCoerce_getCol_year _ (runSteps_hasCol_key _ _ _ (by simp [popSteps]))
  have hP8 : getCol (popCoerce (runSteps popSteps t)) "Population (millions)" =
      some ((colVals (runSteps popSteps t) "Population (millions)").map pdToNumeric) :=
    popCoerce_getCol_pop _ (runSteps_hasCol_key _ _ _ (by simp [popSteps]))
  have hU8 : getCol (popCoerce (runSteps popSteps t)) "Urban Population (%)" =
      some ((colVals (runSteps popSteps t) "Urban Population (%)").map pdToNumeric) :=
    popCoerce_getCol_urban _ (runSteps_hasCol_key _ _ _ (by simp [popSteps]))
  have hR8 : getCol (popCoerce (runSteps popSteps t)) "Rural Population (%)" =
      some ((colVals (runSteps popSteps t) "Rural Population (%)").map pdToNumeric) :=
    popCoerce_getCol_rural _ (runSteps_hasCol_key _ _ _ (by simp [popSteps]))
  have hfix : ∀ (c : String) (l : List Val),
      getCol (popCoerce (runSteps popSteps t)) c = some (l.map pdToNumeric) →
      ∀ v ∈ colVals (load_population_reconcile y t) c, pdToNumeric v = v := by
    intro c l h8 v hv
    have hu : getCol (load_population_reconcile y t) c =
        some (applyMask ((colVals (popCoerce (runSteps popSteps t)) "Year").map
          (fun v => valLE v y)) (l.map pdToNumeric)) := by
      unfold load_population_reconcile
      rw [getCol_filterYearLE, h8]
      rfl
    rw [colVals_eq_of_getCol _ _ _ hu] at hv
    obtain ⟨w, _, rfl⟩ := List.mem_map.mp (mem_applyMask _ _ _ hv)
    exact pdToNumeric_idem w
  have hkey : ∀ c, hasCol (runSteps popSteps t) c = true →
      hasCol (load_population_reconcile y t) c = true := by
    intro c hc
    unfold load_population_reconcile
    rw [hasCol_filterYearLE, popCoerce_hasCol]
    exact hc
  have hA : runSteps popSteps (load_population_reconcile y t) =
      load_population_reconcile y t := by
    apply runSteps_eq_self
    intro p hp
    apply hkey
    exact runSteps_hasCol_mem _ _ _ hp
  have hB : popCoerce (load_population_reconcile y t) = load_population_reconcile y t := by
    simp only [popCoerce, List.foldl]
    rw [coerceNumericCol_fix _ "Year" (hfix _ _ hY8),
      coerceNumericCol_fix _ "Population (millions)" (hfix _ _ hP8),
      coerceNumericCol_fix _ "Urban Population (%)" (hfix _ _ hU8),
      coerceNumericCol_fix _ "Rural Population (%)" (hfix _ _ hR8)]
  have hcv8 : colVals (popCoerce (runSteps popSteps t)) "Year" =
      (colVals (runSteps popSteps t) "Year").map pdToNumeric :=
    colVals_eq_of_getCol _ _ _ hY8
  have hlenEq : countTrue ((colVals (popCoerce (runSteps popSteps t)) "Year").map
      (fun v => valLE v y)) =
      (((colVals (runSteps popSteps t) "Year").map pdToNumeric).filter
        (fun v => valLE v y)).length := by
    rw [hcv8, countTrue_map_eq_length_filter]
  have hC : filterYearLE (load_population_reconcile y t) y =
      load_population_reconcile y t := by
    apply filterYearLE_fix _ _
      (((colVals (runSteps popSteps t) "Year").map pdToNumeric).filter (fun v => valLE v y))
      (population_year_col y t)
    · intro v hv
      exact (List.mem_filter.mp hv).2
    · show (filterYearLE (popCoerce (runSteps popSteps t)) y).nrows = _
      rw [nrows_filterYearLE, hlenEq]
    · intro p hp
      have hucols : (load_population_reconcile y t).cols =
          (popCoerce (runSteps popSteps t)).cols.map
            (fun p => (p.1, applyMask ((colVals (popCoerce (runSteps popSteps t)) "Year").map
              (fun v => valLE v y)) p.2)) := rfl
      rw [hucols] at hp
      obtain ⟨q, hq, rfl⟩ := List.mem_map.mp hp
      calc (applyMask ((colVals (popCoerce (runSteps popSteps t)) "Year").map
            (fun v => valLE v y)) q.2).length
          ≤ countTrue ((colVals (popCoerce (runSteps popSteps t)) "Year").map
            (fun v => valLE v y)) := length_applyMask_le_countTrue _ _
        _ = _ := hlenEq
  calc load_population_reconcile y (load_population_reconcile y t)
      = filterYearLE (popCoerce (runSteps popSteps (load_population_reconcile y t))) y := rfl
    _ = filterYearLE (popCoerce (load_population_reconcile y t)) y := by rw [hA]
    _ = filterYearLE (load_population_reconcile y t) y := by rw [hB]
    _ = load_population_reconcile y t := hC

/- Historical: stage lemmas -/

theorem histTimePeriod_inv (t t5 : Table) (h : histTimePeriod t = .ok t5) :
    (hasCol t "Time Period" = true ∧ t5 = t) ∨
    (∃ formatted, (colVals t "Year").mapM format_time_period = .ok formatted ∧
      t5 = setCol t "Time Period"
        (List.zipWith (fun era f => match lookupStr era_ranges era with
          | some r => Val.vs r
          | none => f) (colVals t "Era") formatted)) := by
  unfold histTimePeriod at h
  split at h
  · rename_i hc
    left
    exact ⟨hc, by simpa [pure, Except.pure] using h.symm⟩
  · right
    cases hm : (colVals t "Year").mapM format_time_period with
    | error e =>
      rw [hm] at h
      simp [Bind.bind, Except.bind] at h
    | ok formatted =>
      rw [hm] at h
      simp only [Bind.bind, Except.bind, pure, Except.pure, Except.ok.injEq] at h
      exact ⟨formatted, rfl, h.symm⟩

theorem histTimePeriod_fix (u : Table) (h : hasCol u "Time Period" = true) :
    histTimePeriod u = .ok u := by
  unfold histTimePeriod
  rw [if_pos h]
  rfl

theorem histTimePeriod_hasCol (t t5 : Table) (h : histTimePeriod t = .ok t5) :
    hasCol t5 "Time Period" = true := by
  rcases histTimePeriod_inv t t5 h with ⟨hc, rfl⟩ | ⟨f, hm, rfl⟩
  · exact hc
  · exact hasCol_setCol_self _ _ _

theorem histTimePeriod_hasCol_of (t t5 : Table) (d : String)
    (h : histTimePeriod t = .ok t5) (hd : hasCol t d = true) : hasCol t5 d = true := by
  rcases histTimePeriod_inv t t5 h with ⟨hc, rfl⟩ | ⟨f, hm, rfl⟩
  · exact hd
  · exact hasCol_setCol_of _ _ _ _ hd

theorem histTimelineYear_hasCol_of (t : Table) (d : String) (h : hasCol t d = true) :
    hasCol (histTimelineYear t) d = true :=
  hasCol_addColIfMissing_of _ _ _ _ h

theorem histTimelineYear_fix (u : Table) (h : hasCol u "Timeline Year" = true) :
    histTimelineYear u = u :=
  addColIfMissing_of_hasCol _ _ _ h

theorem histMajorEvents_hasCol_of (t : Table) (d : String) (h : hasCol t d = true) :
    hasCol (histMajorEvents t) d = true := by
  unfold histMajorEvents
  exact hasCol_ite_of h (hasCol_setCol_of _ _ _ _ h)

theorem histMajorEvents_creates (t : Table) :
    hasCol (histMajorEvents t) "Major Events" = true := by
  unfold histMajorEvents
  split
  · assumption
  · exact hasCol_setCol_self _ _ _

theorem histMajorEvents_fix (u : Table) (h : hasCol u "Major Events" = true) :
    histMajorEvents u = u := by
  simp [histMajorEvents, h]

theorem histCapitals_hasCol_of (t : Table) (d : String) (h : hasCol t d = true) :
    hasCol (histCapitals t) d = true :=
  hasCol_addColIfMissing_of _ _ _ _ h

theorem histCapitals_creates (t : Table) :
    hasCol (histCapitals t) "Capital Cities" = true :=
  hasCol_addColIfMissing_self _ _ _

theorem histCapitals_fix (u : Table) (h : hasCol u "Capital Cities" = true) :
    histCapitals u = u :=
  addColIfMissing_of_hasCol _ _ _ h

theorem histRulers_hasCol_of (t : Table) (d : String) (h : hasCol t d = true) :
    hasCol (histRulers t) d = true := by
  unfold histRulers
  exact hasCol_ite_of (hasCol_setCol_of _ _ _ _ h)
    (hasCol_ite_of (hasCol_setCol_of _ _ _ _ h) h)

theorem histRulers_creates (t : Table) :
    hasCol (histRulers t) "Key Rulers/Leaders" = true := by
  unfold histRulers
  split
  · exact hasCol_setCol_self _ _ _
  · split
    · exact hasCol_setCol_self _ _ _
    · rename_i h1 h2
      simpa using h2

theorem histRulers_fix (u : Table) (h : hasCol u "Key Rulers/Leaders" = true) :
    histRulers u = u := by
  simp [histRulers, h]

theorem additional_columns_names :
    (additional_columns.map (fun p => (p.1, mapFromCol "Era" p.2 Val.na))).map Prod.fst =
      additional_columns.map Prod.fst := by
  rw [List.map_map]
  rfl

theorem histAdditional_hasCol_of (t : Table) (d : String) (h : hasCol t d = true) :
    hasCol (histAdditional t) d = true :=
  runSteps_hasCol_of _ _ _ h

theorem histAdditional_creates (t : Table) (c : String)
    (hc : c ∈ additional_columns.map Prod.fst) :
    hasCol (histAdditional t) c = true := by
  apply runSteps_hasCol_key
  rw [additional_columns_names]
  exact hc

theorem histAdditional_fix (u : Table)
    (h : ∀ c ∈ additional_columns.map Prod.fst, hasCol u c = true) :
    histAdditional u = u := by
  apply runSteps_eq_self
  intro p hp
  obtain ⟨q, hq, rfl⟩ := List.mem_map.mp hp
  exact h q.1 (List.mem_map.mpr ⟨q, hq, rfl⟩)

/- Historical: patch lemmas -/

theorem patchCell_idem (n s : String) (e x y : Val) (h : patchCell n s e x = .ok y) :
    patchCell n s e y = .ok y := by
  unfold patchCell at *
  cases he : eventString e with
  | error msg => rw [he] at h; simp [Bind.bind, Except.bind] at h
  | ok se =>
    rw [he] at h
    simp only [Bind.bind, Except.bind, pure, Except.pure, Except.ok.injEq] at h
    simp only [Bind.bind, Except.bind, pure, Except.pure, Except.ok.injEq]
    by_cases hc : (containsSub se n && isna x) = true
    · rw [if_pos hc] at h
      subst h
      simp [isna]
    · rw [if_neg hc] at h
      subst h
      rw [if_neg hc]

theorem mapM_patch_idem (n s : String) (ev l lp : List Val)
    (h : (List.zip ev l).mapM (fun p => patchCell n s p.1 p.2) = .ok lp) :
    (List.zip ev lp).mapM (fun p => patchCell n s p.1 p.2) = .ok lp := by
  induction ev generalizing l lp with
  | nil =>
    simp only [List.zip_nil_left, List.mapM_nil, pure, Except.pure, Except.ok.injEq] at h
    subst h
    rw [List.zip_nil_left, List.mapM_nil]
    rfl
  | cons e ev ih =>
    cases l with
    | nil =>
      simp only [List.zip_nil_right, List.mapM_nil, pure, Except.pure, Except.ok.injEq] at h
      subst h
      rw [List.zip_nil_right, List.mapM_nil]
      rfl
    | cons x xs =>
      rw [List.zip_cons_cons, List.mapM_cons] at h
      cases hx : patchCell n s e x with
      | error msg => rw [hx] at h; simp [Bind.bind, Except.bind] at h
      | ok y =>
        rw [hx] at h
        cases hrest : (List.zip ev xs).mapM (fun p => patchCell n s p.1 p.2) with
        | error msg =>
          rw [hrest] at h
          simp [Bind.bind, Except.bind] at h
        | ok ys =>
          rw [hrest] at h
          simp only [Bind.bind, Except.bind, pure, Except.pure, Except.ok.injEq] at h
          subst h
          rw [List.zip_cons_cons, List.mapM_cons, patchCell_idem n s e x y hx]
          simp only [Bind.bind, Except.bind, ih xs ys hrest, pure, Except.pure]

theorem patchCol_inv (t t2 : Table) (n c s : String) (h : patchCol t n c s = .ok t2) :
    ∃ patched, (List.zip (colVals t "Event") (colVals t c)).mapM
      (fun p => patchCell n s p.1 p.2) = .ok patched ∧ t2 = setCol t c patched := by
  unfold patchCol at h
  cases hm : (List.zip (colVals t "Event") (colVals t c)).mapM
      (fun p => patchCell n s p.1 p.2) with
  | error msg => rw [hm] at h; simp [Bind.bind, Except.bind] at h
  | ok patched =>
    rw [hm] at h
    simp only [Bind.bind, Except.bind, pure, Except.pure, Except.ok.injEq] at h
    exact ⟨patched, rfl, h.symm⟩

theorem patchCol_fix (u : Table) (n c s : String) (ev lp : List Val)
    (hev : colVals u "Event" = ev) (hlp : getCol u c = some lp)
    (hfix : (List.zip ev lp).mapM (fun p => patchCell n s p.1 p.2) = .ok lp) :
    patchCol u n c s = .ok u := by
  unfold patchCol
  rw [hev, colVals_eq_of_getCol _ _ _ hlp, hfix]
  simp only [Bind.bind, Except.bind, pure, Except.pure, Except.ok.injEq]
  exact setCol_eq_self _ _ _ hlp

theorem load_historical_reconcile_idem (t u : Table)
    (h : load_historical_reconcile t = .ok u) :
    load_historical_reconcile u = .ok u := by
  unfold load_historical_reconcile at h
  cases h5 : histTimePeriod (histDefaults t) with
  | error e => rw [h5] at h; simp [Bind.bind, Except.bind] at h
  | ok t5 =>
    rw [h5] at h
    simp only [Bind.bind, Except.bind] at h
    unfold histPatches at h
    cases hp1 : patchCol (histPost t5) "Battle of Plassey" "Military Developments"
        "British victory through superior artillery and infantry tactics, showcasing European military advantage over traditional Indian armies." with
    | error e => rw [hp1] at h; simp [Bind.bind, Except.bind] at h
    | ok v1 =>
      rw [hp1] at h
      simp only [Bind.bind, Except.bind] at h
      cases hp2 : patchCol v1 "Gandhi returns" "Cultural Developments"
          "Introduction of Gandhian principles of simplicity, self-sufficiency, and non-violence that profoundly influenced Indian cultural values." with
      | error e => rw [hp2] at h; simp [Bind.bind, Except.bind] at h
      | ok v2 =>
        rw [hp2] at h
        simp only [Bind.bind, Except.bind] at h
        obtain ⟨p1, h1m, hv1⟩ := patchCol_inv _ _ _ _ _ hp1
        obtain ⟨p2, h2m, hv2⟩ := patchCol_inv _ _ _ _ _ hp2
        obtain ⟨p3, h3m, hu⟩ := patchCol_inv _ _ _ _ _ h
        subst hv1
        subst hv2
        subst hu
        -- normalize the pass-1 mapM facts to speak about histPost t5
        rw [show colVals (setCol (histPost t5) "Military Developments" p1) "Event" =
            colVals (histPost t5) "Event" by
          unfold colVals; rw [getCol_setCol_ne _ _ _ _ (by decide)]] at h2m
        rw [show colVals (setCol (histPost t5) "Military Developments" p1)
              "Cultural Developments" = colVals (histPost t5) "Cultural Developments" by
          unfold colVals; rw [getCol_setCol_ne _ _ _ _ (by decide)]] at h2m
        rw [show colVals (setCol (setCol (histPost t5) "Military Developments" p1)
              "Cultural Developments" p2) "Event" = colVals (histPost t5) "Event" by
          unfold colVals
          rw [getCol_setCol_ne _ _ _ _ (by decide), getCol_setCol_ne _ _ _ _ (by decide)]] at h3m
        rw [show colVals (setCol (setCol (histPost t5) "Military Developments" p1)
              "Cultural Developments" p2) "Economic Systems" =
              colVals (histPost t5) "Economic Systems" by
          unfold colVals
          rw [getCol_setCol_ne _ _ _ _ (by decide), getCol_setCol_ne _ _ _ _ (by decide)]] at h3m
        set U := setCol (setCol (setCol (histPost t5) "Military Developments" p1)
          "Cultural Developments" p2) "Economic Systems" p3 with hUdef
        have hU_of_W : ∀ d, hasCol (histPost t5) d = true → hasCol U d = true :=
          fun d hd => hasCol_setCol_of _ _ _ _ (hasCol_setCol_of _ _ _ _
            (hasCol_setCol_of _ _ _ _ hd))
        have hW : ∀ d, hasCol t5 d = true → hasCol (histPost t5) d = true := by
          intro d hd
          unfold histPost
          exact histAdditional_hasCol_of _ _ (histRulers_hasCol_of _ _
            (histCapitals_hasCol_of _ _ (histMajorEvents_hasCol_of _ _
              (histTimelineYear_hasCol_of _ _ hd))))
        have hT5 : ∀ d, hasCol (histDefaults t) d = true → hasCol t5 d = true :=
          fun d hd => histTimePeriod_hasCol_of _ _ _ h5 hd
        have hreq : ∀ c ∈ ["Year", "Era", "Event", "Significance"],
            hasCol U c = true := by
          intro c hc
          apply hU_of_W
          apply hW
          apply hT5
          apply runSteps_hasCol_key
          simpa [histDefaults] using hc
        have hEv : colVals U "Event" = colVals (histPost t5) "Event" := by
          rw [hUdef]
          unfold colVals
          rw [getCol_setCol_ne _ _ _ _ (by decide), getCol_setCol_ne _ _ _ _ (by decide),
            getCol_setCol_ne _ _ _ _ (by decide)]
        have hg1 : getCol U "Military Developments" = some p1 := by
          rw [hUdef]
          rw [getCol_setCol_ne _ _ _ _ (by decide), getCol_setCol_ne _ _ _ _ (by decide),
            getCol_setCol_self]
        have hg2 : getCol U "Cultural Developments" = some p2 := by
          rw [hUdef]
          rw [getCol_setCol_ne _ _ _ _ (by decide), getCol_setCol_self]
        have hg3 : getCol U "Economic Systems" = some p3 := by
          rw [hUdef]
          exact getCol_setCol_self _ _ _
        have hdef : histDefaults U = U := by
          apply runSteps_eq_self
          intro p hp
          simp only [List.mem_cons, List.not_mem_nil, or_false] at hp
          rcases hp with rfl | rfl | rfl | rfl
          · exact hreq _ (by simp)
          · exact hreq _ (by simp)
          · exact hreq _ (by simp)
          · exact hreq _ (by simp)
        have htp : histTimePeriod U = .ok U := by
          apply histTimePeriod_fix
          exact hU_of_W _ (hW _ (histTimePeriod_hasCol _ _ h5))
        have hpost : histPost U = U := by
          have hTY : hasCol U "Timeline Year" = true := by
            apply hU_of_W
            unfold histPost
            apply histAdditional_hasCol_of
            apply histRulers_hasCol_of
            apply histCapitals_hasCol_of
            apply histMajorEvents_hasCol_of
            exact hasCol_addColIfMissing_self _ _ _
          have hME : hasCol U "Major Events" = true := by
            apply hU_of_W
            unfold histPost
            apply histAdditional_hasCol_of
            apply histRulers_hasCol_of
            apply histCapitals_hasCol_of
            exact histMajorEvents_creates _
          have hCC : hasCol U "Capital Cities" = true := by
            apply hU_of_W
            unfold histPost
            apply histAdditional_hasCol_of
            apply histRulers_hasCol_of
            exact histCapitals_creates _
          have hKR : hasCol U "Key Rulers/Leaders" = true := by
            apply hU_of_W
            unfold histPost
            apply histAdditional_hasCol_of
            exact histRulers_creates _
          have hAdd : ∀ c ∈ additional_columns.map Prod.fst, hasCol U c = true := by
            intro c hc
            apply hU_of_W
            show hasCol (histPost t5) c = true
            unfold histPost
            exact histAdditional_creates _ c hc
          show histAdditional (histRulers (histCapitals (histMajorEvents
            (histTimelineYear U)))) = U
          rw [histTimelineYear_fix _ hTY, histMajorEvents_fix _ hME, histCapitals_fix _ hCC,
            histRulers_fix _ hKR]
          exact histAdditional_fix _ hAdd
        have hpatches : histPatches U = .ok U := by
          unfold histPatches
          rw [patchCol_fix _ _ _ _ _ p1 hEv hg1 (mapM_patch_idem _ _ _ _ _ h1m)]
          simp only [Bind.bind, Except.bind]
          rw [patchCol_fix _ _ _ _ _ p2 hEv hg2 (mapM_patch_idem _ _ _ _ _ h2m)]
          simp only [Bind.bind, Except.bind]
          exact patchCol_fix _ _ _ _ _ p3 hEv hg3 (mapM_patch_idem _ _ _ _ _ h3m)
        show load_historical_reconcile U = .ok U
        unfold load_historical_reconcile
        rw [hdef, htp]
        simp only [Bind.bind, Except.bind]
        rw [hpost]
        exact hpatches

/- ### Additional lemmas for the claim analyses -/

theorem getCol_addColIfMissing_of_hasCol (t : Table) (c d : String) (xs : List Val)
    (h : hasCol t d = true) : getCol (addColIfMissing t c xs) d = getCol t d := by
  by_cases hdc : d = c
  · subst hdc
    rw [addColIfMissing_of_hasCol _ _ _ h]
  · exact getCol_addColIfMissing_ne _ _ _ _ hdc

theorem runSteps_getCol_of_hasCol (ps : List (String × (Table → List Val))) (t : Table)
    (d : String) (h : hasCol t d = true) : getCol (runSteps ps t) d = getCol t d := by
  induction ps generalizing t with
  | nil => rfl
  | cons p ps ih =>
    show getCol (runSteps ps (addColIfMissing t p.1 (p.2 t))) d = getCol t d
    rw [ih _ (hasCol_addColIfMissing_of _ _ _ _ h),
      getCol_addColIfMissing_of_hasCol _ _ _ _ h]

theorem festMappings_getCol_festival (t : Table) :
    getCol (festMappings t) "Festival" = getCol t "Festival" := by
  unfold festMappings
  rw [getCol_condSet_ne _ _ _ _ _ (by decide), getCol_condSet_ne _ _ _ _ _ (by decide),
    getCol_condSet_ne _ _ _ _ _ (by decide)]

theorem festMappings_getCol_religion (t : Table) (h : hasCol t "Religion" = true) :
    getCol (festMappings t) "Religion" = getCol t "Religion" := by
  unfold festMappings
  rw [getCol_condSet_ne _ _ _ _ _ (by decide), getCol_condSet_ne _ _ _ _ _ (by decide),
    if_neg (by simp [h])]

theorem festMappings_getCol_region (t : Table) (h : hasCol t "Region" = true) :
    getCol (festMappings t) "Region" = getCol t "Region" := by
  unfold festMappings
  rw [getCol_condSet_ne _ _ _ _ _ (by decide),
    hasCol_condSet_ne t _ "Religion" "Primary States" _ (by decide),
    hasCol_condSet_ne t _ "Religion" "Region" _ (by decide),
    if_neg (by simp [h]),
    getCol_condSet_ne _ _ _ _ _ (by decide)]

theorem festMappings_getCol_month_noSeason (t : Table) (hS : hasCol t "Season" = false) :
    getCol (festMappings t) "Month" = getCol t "Month" := by
  simp only [festMappings]
  rw [hasCol_condSet_ne _ _ "Region" "Season" _ (by decide),
    hasCol_condSet_ne t _ "Religion" "Season" _ (by decide),
    if_neg (by simp [hS]),
    getCol_condSet_ne _ _ _ _ _ (by decide),
    getCol_condSet_ne _ _ _ _ _ (by decide)]

theorem festMonth_getCol_ne (t : Table) (d : String) (h : d ≠ "Month") :
    getCol (festMonth t) d = getCol t d := by
  unfold festMonth
  split
  · exact getCol_setCol_ne _ _ _ _ h
  · rfl

theorem mapM_except_error {α β : Type} (f : α → Except String β) (l : List α) (x : α)
    (hx : x ∈ l) (e : String) (hf : f x = Except.error e) :
    ∃ ep, l.mapM f = Except.error ep := by
  induction l with
  | nil => cases hx
  | cons a as ih =>
    rw [List.mapM_cons]
    rcases List.mem_cons.mp hx with rfl | hmem
    · exact ⟨e, by simp [hf, Bind.bind, Except.bind]⟩
    · cases hfa : f a with
      | error e2 => exact ⟨e2, by simp [hfa, Bind.bind, Except.bind]⟩
      | ok b =>
        obtain ⟨ep, hep⟩ := ih hmem
        refine ⟨ep, ?_⟩
        simp only [hfa, Bind.bind, Except.bind]
        rw [hep]

/- ### The claims -/

/-- C1 (amended): the nine loaders load_linguistic/religious/state/cultural/
population/economic/historical/festivals/tourism_data catch any pipeline
exception at the loader boundary and return None, while load_education_data
returns the one-row expected_columns substitute table and load_geography_data
returns the fixed sample terrain table — both non-null. -/
theorem claim_C1_amended (e : String) (t : Table) :
    loaderBoundaryNone (Except.error e) = none ∧
    loaderBoundaryNone (Except.ok t) = some t ∧
    load_education_boundary (Except.error e) = some educationFallbackTable ∧
    load_education_boundary (Except.error e) ≠ none ∧
    load_geography_boundary (Except.error e) = some terrain_data ∧
    load_geography_boundary (Except.error e) ≠ none :=
  ⟨rfl, rfl, rfl, by simp [load_education_boundary], rfl,
   by simp [load_geography_boundary]⟩

/-- C1 counterexample: a failing education or geography pipeline makes the
loader return a substitute table, not None. -/
theorem claim_C1_counterexample :
    load_education_boundary (Except.error "read failure") = some educationFallbackTable ∧
    load_geography_boundary (Except.error "read failure") = some terrain_data ∧
    load_education_boundary (Except.error "read failure") ≠ none :=
  ⟨rfl, rfl, by simp [load_education_boundary]⟩

/-- C10: a geography table missing Terrain_Type or Percentage is discarded
wholesale in favour of the fixed 6-row sample terrain table (Mountains,
Plains, Plateaus, Deserts, Coastlines, Forests); when both columns are
present the table passes through unchanged. -/
theorem claim_C10 (t : Table)
    (h : hasCol t "Terrain_Type" = false ∨ hasCol t "Percentage" = false) :
    load_geography_reconcile t = terrain_data ∧
    terrain_data.nrows = 6 ∧
    getCol terrain_data "Terrain_Type" = some [Val.vs "Mountains", Val.vs "Plains",
      Val.vs "Plateaus", Val.vs "Deserts", Val.vs "Coastlines", Val.vs "Forests"] ∧
    (∀ u : Table, hasCol u "Terrain_Type" = true → hasCol u "Percentage" = true →
      load_geography_reconcile u = u) := by
  refine ⟨?_, rfl, rfl, ?_⟩
  · rcases h with h | h <;> simp [load_geography_reconcile, h]
  · intro u h1 h2
    simp [load_geography_reconcile, h1, h2]

/-- C10 witness: a one-column table lacking Terrain_Type is replaced by the
sample terrain table. -/
theorem claim_C10_witness : load_geography_reconcile c10Table = terrain_data :=
  (claim_C10 c10Table (Or.inl (by decide))).1

/-- C7 (amended): the colon-ratio parser maps "1:26" to 26 and any null or
non-string cell to 0, but an empty string reaches float("") and raises
ValueError instead of parsing to 0. -/
theorem claim_C7_amended (v : Val) (h : isStringVal v = false) :
    ratioToNum (Val.vs "1:26") = Except.ok 26 ∧
    ratioToNum v = Except.ok 0 ∧
    ratioToNum (Val.vs "") = Except.error "ValueError" := by
  refine ⟨by with_unfolding_all rfl, ?_, by rfl⟩
  cases v with
  | vs s => simp [isStringVal] at h
  | vi n => rfl
  | vf q => rfl
  | na => rfl

/-- C7 witness: a null ratio cell parses to 0. -/
theorem claim_C7_amended_witness : ratioToNum Val.na = Except.ok 0 :=
  (claim_C7_amended Val.na rfl).2.1

/-- C7 counterexample: the empty ratio string raises ValueError rather than
parsing to 0. -/
theorem claim_C7_counterexample :
    ratioToNum (Val.vs "") = Except.error "ValueError" ∧
    ∀ q : Rat, ratioToNum (Val.vs "") ≠ Except.ok q := by
  have h : ratioToNum (Val.vs "") = Except.error "ValueError" := by rfl
  exact ⟨h, fun q hq => by rw [h] at hq; cases hq⟩

/-- C5: Timeline Year extracts the first integer token of the Time Period
string and negates it exactly when the string contains "BCE" ("1500 BCE"
yields -1500, "1526 CE" yields 1526), and this signed value is the ascending
chronological sort key. -/
theorem claim_C5 (rows : List (String × Int)) :
    timelineYear "1500 BCE" = some (-1500) ∧
    timelineYear "1526 CE" = some 1526 ∧
    (∀ s k, startYearExtract s = some k →
      timelineYear s = some (if bceFlag s then -k else k)) ∧
    List.Sorted (fun a b : String × Int => a.2 ≤ b.2) (sortChrono rows) ∧
    List.Perm (sortChrono rows) rows := by
  refine ⟨by decide, by decide, ?_, ?_, ?_⟩
  · intro s k h
    simp [timelineYear, h]
  · exact List.sorted_insertionSort _ rows
  · exact List.perm_insertionSort _ rows

/-- C5 witness: concrete BCE extraction and a concrete chronological sort. -/
theorem claim_C5_witness :
    timelineYear "1500 BCE" = some (-1500) ∧
    timelineYear "322 BCE" = some (-322) ∧
    List.Sorted (fun a b : String × Int => a.2 ≤ b.2)
      (sortChrono [("Gupta Empire", 320), ("Mauryan Empire", -322),
        ("Modern India", 1947)]) := by
  obtain ⟨h1, h2, h3, h4, h5⟩ := claim_C5 [("Gupta Empire", 320),
    ("Mauryan Empire", -322), ("Modern India", 1947)]
  refine ⟨h1, ?_, h4⟩
  have hb := h3 "322 BCE" 322 (by decide)
  simpa [show bceFlag "322 BCE" = true by decide] using hb

/-- C6: multi-list row alignment truncates every list to the minimum common
length, and element i of every aligned list is element i of the matching
input list. -/
theorem claim_C6 {α β γ : Type} (xs : List α) (ys : List β) (zs : List γ) (i : Nat)
    (hi : i < min (min xs.length ys.length) zs.length) :
    ((alignMin3 xs ys zs).1.length = min (min xs.length ys.length) zs.length ∧
     (alignMin3 xs ys zs).2.1.length = min (min xs.length ys.length) zs.length ∧
     (alignMin3 xs ys zs).2.2.length = min (min xs.length ys.length) zs.length) ∧
    ((alignMin3 xs ys zs).1[i]? = xs[i]? ∧
     (alignMin3 xs ys zs).2.1[i]? = ys[i]? ∧
     (alignMin3 xs ys zs).2.2[i]? = zs[i]?) := by
  simp only [alignMin3, List.length_take, List.getElem?_take]
  have h1 : min (min xs.length ys.length) zs.length ≤ xs.length := by omega
  have h2 : min (min xs.length ys.length) zs.length ≤ ys.length := by omega
  have h3 : min (min xs.length ys.length) zs.length ≤ zs.length := by omega
  refine ⟨⟨by omega, by omega, by omega⟩, ?_, ?_, ?_⟩ <;> simp [hi] <;> omega

/-- C6 witness: lists of lengths 5, 3 and 4 align to length 3, preserving
positions. -/
theorem claim_C6_witness :
    (alignMin3 (List.range 5) (List.range 3) (List.range 4)).1.length = 3 ∧
    (alignMin3 (List.range 5) (List.range 3) (List.range 4)).2.1[2]? = some 2 := by
  obtain ⟨hlen, hget⟩ := claim_C6 (List.range 5) (List.range 3) (List.range 4) 2
    (by decide)
  exact ⟨hlen.1.trans (by decide), hget.2.1.trans (by decide)⟩

/-- C4 (amended): the composite-field parsers return the neutral value (empty
list, 0) on every null/non-string input, and a failing float() conversion
propagates: a string scalar on which float() fails makes the scalar parser
raise, and a comma-separated list with any malformed token makes the list
parser raise instead of returning a value. -/
theorem claim_C4_amended (v : Val) (h : isStringVal v = false) :
    (parseFloatList v = Except.ok [] ∧ parseStringList v = [] ∧
     ratioToNum v = Except.ok 0 ∧ fractionHeadToNum v = Except.ok 0 ∧
     scalarToNum v = Except.ok 0) ∧
    (∀ s e, pyFloat s = Except.error e → scalarToNum (Val.vs s) = Except.error e) ∧
    (∀ ss cs e, cs ∈ charSplitOn ss.toList [',', ' '] →
      pyFloat (String.mk cs) = Except.error e →
      ∃ ep, parseFloatList (Val.vs ss) = Except.error ep) := by
  refine ⟨?_, ?_, ?_⟩
  · cases v with
    | vs s => simp [isStringVal] at h
    | vi n => exact ⟨rfl, rfl, rfl, rfl, rfl⟩
    | vf q => exact ⟨rfl, rfl, rfl, rfl, rfl⟩
    | na => exact ⟨rfl, rfl, rfl, rfl, rfl⟩
  · intro s e he
    simp [scalarToNum, he]
  · intro ss cs e hmem he
    exact mapM_except_error _ _ cs hmem e he

/-- C4 witness: neutral values on null input, and a malformed token in a
comma-separated numeric list makes the list parse raise. -/
theorem claim_C4_amended_witness :
    parseFloatList Val.na = Except.ok [] ∧ ratioToNum Val.na = Except.ok 0 ∧
    ∃ ep, parseFloatList (Val.vs "96.2, 79.85, n/a") = Except.error ep := by
  obtain ⟨h1, h2, h3⟩ := claim_C4_amended Val.na rfl
  refine ⟨h1.1, h1.2.2.1, ?_⟩
  exact h3 "96.2, 79.85, n/a" ['n', '/', 'a'] "ValueError" (by decide)
    (by with_unfolding_all rfl)

/-- C4 counterexample: a non-numeric element in a comma-separated numeric
list raises ValueError instead of yielding a value of the expected type. -/
theorem claim_C4_counterexample :
    parseFloatList (Val.vs "96.2, abc") = Except.error "ValueError" := by
  with_unfolding_all rfl

/-- C2 (amended): festivals reconciliation preserves present Festival,
Religion and Region columns, and preserves a present Month column whenever
Season is absent — but overwrites Month from Season when both are present;
population reconciliation never rewrites cells of columns outside its four
declared numeric ones, but masks every column by the Year filter, so whole
rows may be dropped. -/
theorem claim_C2_amended (t : Table) (y : Int) :
    (hasCol t "Festival" = true →
      getCol (load_festivals_reconcile t) "Festival" = getCol t "Festival") ∧
    (hasCol t "Religion" = true →
      getCol (load_festivals_reconcile t) "Religion" = getCol t "Religion") ∧
    (hasCol t "Region" = true →
      getCol (load_festivals_reconcile t) "Region" = getCol t "Region") ∧
    (hasCol t "Month" = true → hasCol t "Season" = false →
      getCol (load_festivals_reconcile t) "Month" = getCol t "Month") ∧
    (∃ mask : List Bool, ∀ c : String,
      c ≠ "Year" → c ≠ "Population (millions)" →
      c ≠ "Urban Population (%)" → c ≠ "Rural Population (%)" →
      getCol (load_population_reconcile y t) c = (getCol t c).map (applyMask mask)) := by
  refine ⟨?_, ?_, ?_, ?_, ?_⟩
  · intro h
    unfold load_festivals_reconcile festRequired
    rw [festRefs_getCol_ne _ _ (by decide) (by decide) (by decide) (by decide) (by decide),
      festMonth_getCol_ne _ _ (by decide),
      runSteps_getCol_of_hasCol _ _ _ (festMappings_hasCol_of _ _ h),
      festMappings_getCol_festival]
  · intro h
    unfold load_festivals_reconcile festRequired
    rw [festRefs_getCol_ne _ _ (by decide) (by decide) (by decide) (by decide) (by decide),
      festMonth_getCol_ne _ _ (by decide),
      runSteps_getCol_of_hasCol _ _ _ (festMappings_hasCol_of _ _ h),
      festMappings_getCol_religion _ h]
  · intro h
    unfold load_festivals_reconcile festRequired
    rw [festRefs_getCol_ne _ _ (by decide) (by decide) (by decide) (by decide) (by decide),
      festMonth_getCol_ne _ _ (by decide),
      runSteps_getCol_of_hasCol _ _ _ (festMappings_hasCol_of _ _ h),
      festMappings_getCol_region _ h]
  · intro hM hS
    have hS2 : hasCol (festRequired (festMappings t)) "Season" = false := by
      unfold festRequired
      rw [runSteps_hasCol_ne festRequiredSteps _ _ (by
        intro p hp
        simp only [festRequiredSteps, List.mem_cons, List.not_mem_nil, or_false] at hp
        rcases hp with rfl | rfl | rfl | rfl <;> decide),
        festMappings_hasCol_season]
      exact hS
    unfold load_festivals_reconcile
    rw [festRefs_getCol_ne _ _ (by decide) (by decide) (by decide) (by decide) (by decide),
      festMonth_fix_noSeason _ hS2]
    unfold festRequired
    rw [runSteps_getCol_of_hasCol _ _ _ (festMappings_hasCol_of _ _ hM),
      festMappings_getCol_month_noSeason _ hS]
  · refine ⟨(colVals (popCoerce (runSteps popSteps t)) "Year").map (fun v => valLE v y), ?_⟩
    intro c h1 h2 h3 h4
    unfold load_population_reconcile
    rw [getCol_filterYearLE]
    have hX : getCol (popCoerce (runSteps popSteps t)) c = getCol t c := by
      simp only [popCoerce, List.foldl]
      rw [getCol_coerce_ne _ _ _ h4, getCol_coerce_ne _ _ _ h3,
        getCol_coerce_ne _ _ _ h2, getCol_coerce_ne _ _ _ h1]
      refine runSteps_getCol_ne popSteps t c ?_
      intro p hp
      simp only [popSteps, List.mem_cons, List.not_mem_nil, or_false] at hp
      rcases hp with rfl | rfl | rfl | rfl
      · exact h1
      · exact h2
      · exact h3
      · exact h4
    rw [hX]

/-- C2 witness: with Season absent, a festivals table keeps its present
Festival and Month columns untouched. -/
theorem claim_C2_amended_witness :
    getCol (load_festivals_reconcile c2NoSeasonTable) "Festival" =
      getCol c2NoSeasonTable "Festival" ∧
    getCol (load_festivals_reconcile c2NoSeasonTable) "Month" =
      getCol c2NoSeasonTable "Month" := by
  obtain ⟨h1, h2, h3, h4, h5⟩ := claim_C2_amended c2NoSeasonTable 2024
  exact ⟨h1 (by decide), h4 (by decide) (by decide)⟩

/-- C2 counterexample: a festivals table with Month present and non-null
("December") gets its Month overwritten from Season ("October-November"
extracts to "October"). -/
theorem claim_C2_counterexample :
    hasCol c2RawTable "Month" = true ∧
    getCol c2RawTable "Month" = some [Val.vs "December"] ∧
    getCol (load_festivals_reconcile c2RawTable) "Month" = some [Val.vs "October"] := by
  exact ⟨by decide, by decide, by decide⟩

/-- C8 (amended): pd.to_numeric(errors=\x27coerce\x27) never leaves a string — it
coerces invalid tokens to NaN, not to 0 — and only load_population_data
coerces at reconcile time, over its four declared columns (whose reconciled
values are therefore never strings); load_education_data leaves numeric
fields such as PISA scores as strings. -/
theorem claim_C8_amended (t : Table) (y : Int) (c : String)
    (hc : c = "Year" ∨ c = "Population (millions)" ∨ c = "Urban Population (%)" ∨
      c = "Rural Population (%)") (l : List Val)
    (hl : getCol (load_population_reconcile y t) c = some l) :
    (∀ w, isStringVal (pdToNumeric w) = false) ∧
    pdToNumeric (Val.vs "abc") = Val.na ∧
    (∀ v ∈ l, isStringVal v = false) ∧
    getCell educationFallbackTable "PISA Reading Score" 0 = some (Val.vs "415") := by
  have hns : ∀ w, isStringVal (pdToNumeric w) = false := by
    intro w
    cases w with
    | vs s =>
      cases hpi : pyInt s with
      | ok n => simp [pdToNumeric, hpi, isStringVal]
      | error e =>
        cases hpf : pyFloat s with
        | ok q => simp [pdToNumeric, hpi, hpf, isStringVal]
        | error e2 => simp [pdToNumeric, hpi, hpf, isStringVal]
    | vi n => rfl
    | vf q => rfl
    | na => rfl
  refine ⟨hns, by rfl, ?_, by decide⟩
  have hkey : hasCol (runSteps popSteps t) c = true := by
    refine runSteps_hasCol_key _ _ _ ?_
    rcases hc with rfl | rfl | rfl | rfl <;> simp [popSteps]
  have hXc : getCol (popCoerce (runSteps popSteps t)) c =
      some ((colVals (runSteps popSteps t) c).map pdToNumeric) := by
    rcases hc with rfl | rfl | rfl | rfl
    · exact popCoerce_getCol_year _ hkey
    · exact popCoerce_getCol_pop _ hkey
    · exact popCoerce_getCol_urban _ hkey
    · exact popCoerce_getCol_rural _ hkey
  rw [show load_population_reconcile y t =
      filterYearLE (popCoerce (runSteps popSteps t)) y from rfl,
    getCol_filterYearLE, hXc] at hl
  simp only [Option.map_some'] at hl
  have hleq := Option.some.inj hl
  subst hleq
  intro v hv
  obtain ⟨w, _, rfl⟩ := List.mem_map.mp (mem_applyMask _ _ _ hv)
  exact hns w

/-- C8 witness: a concrete population table whose malformed cell is coerced
away and whose Year column holds only non-string values. -/
theorem claim_C8_amended_witness :
    pdToNumeric (Val.vs "abc") = Val.na ∧ isStringVal (Val.vi 2000) = false := by
  obtain ⟨h1, h2, h3, h4⟩ := claim_C8_amended c8PopTable 2025 "Year" (Or.inl rfl)
    [Val.vi 2000] (by decide)
  exact ⟨h2, h3 (Val.vi 2000) (by simp)⟩

/-- C8 counterexample: the invalid Population token "abc" is coerced to NaN,
not to the neutral value 0. -/
theorem claim_C8_counterexample :
    getCell (load_population_reconcile 2025 c8PopTable) "Population (millions)" 0 =
      some Val.na ∧ Val.na ≠ Val.vf 0 ∧ Val.na ≠ Val.vi 0 :=
  ⟨by decide, by decide, by decide⟩

/-- C9: every Year cell of the reconciled population table satisfies
Year <= current year, and the Year column is exactly the coerced raw Year
column filtered by that bound — rows with a later Year are silently
dropped. -/
theorem claim_C9 (y : Int) (t : Table) (i : Nat) (v : Val)
    (h : getCell (load_population_reconcile y t) "Year" i = some v) :
    valLE v y = true ∧
    getCol (load_population_reconcile y t) "Year" =
      some (((colVals (runSteps popSteps t) "Year").map pdToNumeric).filter
        (fun w => valLE w y)) := by
  have hcol := population_year_col y t
  refine ⟨?_, hcol⟩
  unfold getCell at h
  rw [hcol] at h
  have h2 : (((colVals (runSteps popSteps t) "Year").map pdToNumeric).filter
      (fun w => valLE w y))[i]? = some v := by simpa using h
  have hmem : v ∈ ((colVals (runSteps popSteps t) "Year").map pdToNumeric).filter
      (fun w => valLE w y) := List.getElem?_mem h2
  have hp := List.of_mem_filter hmem
  simpa using hp

/-- C9 witness: a 2090 projection row is dropped while the 2000 row survives
with Year below the bound. -/
theorem claim_C9_witness :
    valLE (Val.vi 2000) 2025 = true ∧
    getCol (load_population_reconcile 2025 c9Table) "Year" =
      some (((colVals (runSteps popSteps c9Table) "Year").map pdToNumeric).filter
        (fun w => valLE w 2025)) := by
  obtain ⟨h1, h2⟩ := claim_C9 2025 c9Table 0 (Val.vi 2000) (by decide)
  exact ⟨h1, h2⟩

/-- C3: reconciliation is idempotent for every domain — the ten total
reconciliation bodies are idempotent on every table, and the historical body
(which can raise) maps any of its own outputs back to itself. -/
theorem claim_C3 (y : Int) (t u : Table) :
    load_linguistic_reconcile (load_linguistic_reconcile t) = load_linguistic_reconcile t ∧
    load_religious_reconcile (load_religious_reconcile t) = load_religious_reconcile t ∧
    load_state_reconcile (load_state_reconcile t) = load_state_reconcile t ∧
    load_cultural_reconcile (load_cultural_reconcile t) = load_cultural_reconcile t ∧
    load_population_reconcile y (load_population_reconcile y t) =
      load_population_reconcile y t ∧
    load_economic_reconcile (load_economic_reconcile t) = load_economic_reconcile t ∧
    load_festivals_reconcile (load_festivals_reconcile t) = load_festivals_reconcile t ∧
    load_tourism_reconcile (load_tourism_reconcile t) = load_tourism_reconcile t ∧
    load_education_reconcile (load_education_reconcile t) = load_education_reconcile t ∧
    load_geography_reconcile (load_geography_reconcile t) = load_geography_reconcile t ∧
    (load_historical_reconcile t = Except.ok u → load_historical_reconcile u = Except.ok u) :=
  ⟨load_linguistic_reconcile_idem t, load_religious_reconcile_idem t,
   load_state_reconcile_idem t, load_cultural_reconcile_idem t,
   load_population_reconcile_idem y t, load_economic_reconcile_idem t,
   load_festivals_reconcile_idem t, load_tourism_reconcile_idem t,
   load_education_reconcile_idem t, load_geography_reconcile_idem t,
   fun h => load_historical_reconcile_idem t u h⟩

/-- C3 witness: a fully-normalized historical table is a fixed point of the
historical reconciliation. -/
theorem claim_C3_witness :
    load_historical_reconcile histWitnessTable = Except.ok histWitnessTable :=
  (claim_C3 0 histWitnessTable histWitnessTable).2.2.2.2.2.2.2.2.2.2
    (by with_unfolding_all rfl)

/-- C1 witness: a concrete failing pipeline yields None at a None-returning
loader boundary. -/
theorem claim_C1_amended_witness :
    loaderBoundaryNone (Except.error "boom") = none :=
  (claim_C1_amended "boom" terrain_data).1
